import Mathlib

/-!
Verification of the nvidia-modprobe device-file reconciliation engine.

This file gives a shallow embedding, in Lean, of the core routines of
`src/modprobe-utils/nvidia-modprobe-utils.c` and
`src/modprobe-utils/pci-sysfs.c`:

* `modcmp` and `is_kernel_module_loaded` (the loaded-module check over
  `/proc/modules`),
* `nvidia_get_chardev_major` (the `/proc/devices` character-device major
  lookup),
* `init_device_file_parameters` (the device-file permission policy reader),
* `get_file_state_helper`, `symlink_char_dev` and `mknod_helper` (the
  device-node reconciliation engine), together with their callers
  `nvidia_uvm_mknod`, `nvidia_cap_imex_channel_mknod` and
  `nvidia_cap_imex_channel_file_state`,
* `pci_enum_match_id` / `find_matches` and the fail-fast gate of
  `modprobe_helper`.

File contents read by the C code (`/proc/modules`, `/proc/devices`, policy
sources) are modelled as explicit values; the filesystem touched by the
reconciler is modelled as a finite map from paths to stat records, with an
oracle (`World`) deciding which mutating system calls fail, and every
mutating call that the code issues is recorded in a trace.
-/

namespace NvModprobe

/-! ## Module-name comparison (`modcmp`) and the loaded-module check

C strings are modelled as `List Char`; a valid C string has no interior
NUL character, which some theorems assume explicitly. -/

/-- Both characters are in {'-', '_'} — the pair of characters that
`modcmp` treats as interchangeable. -/
def bothDash (a b : Char) : Bool :=
  (a == '-' || a == '_') && (b == '-' || b == '_')

/-- `modcmp` from nvidia-modprobe-utils.c: like `strcmp(3)` except that
differences between '-' and '_' are ignored.  The C loop walks both strings
while both characters are non-NUL, skipping equal characters and
'-'/'_' pairs, and returns `a[i] - b[i]` at the first real difference or at
the end of either string. -/
def modcmp : List Char → List Char → Int
  | [], [] => 0
  | [], b :: _ => -(b.toNat : Int)
  | a :: _, [] => (a.toNat : Int)
  | a :: as, b :: bs =>
    if a = b then modcmp as bs
    else if bothDash a b then modcmp as bs
    else (a.toNat : Int) - (b.toNat : Int)

/-- `NV_MAX_MODULE_NAME_SIZE` is 16, and the scan directive `%15s` stores at
most 15 characters of each line's first token. -/
def NV_MAX_MODULE_NAME_SIZE : Nat := 16

/-- `is_kernel_module_loaded` from nvidia-modprobe-utils.c.  The
`/proc/modules` file is modelled as the list of first whitespace-delimited
tokens of its lines (`fscanf("%15s%*[^\n]\n", ...)` reads the first token of
each line, truncated to 15 characters, and discards the rest of the line);
`none` models a failed `fopen`, which makes the function return 0. -/
def is_kernel_module_loaded (table : Option (List (List Char)))
    (nv_module_name : List Char) : Bool :=
  match table with
  | none => false
  | some tokens => tokens.any fun t => modcmp (t.take 15) nv_module_name == 0

/-- The character relation under which `modcmp` compares equal: equal
characters, or both drawn from {'-', '_'}. -/
def charEquiv (a b : Char) : Prop := a = b ∨ bothDash a b = true

instance (a b : Char) : Decidable (charEquiv a b) := by
  unfold charEquiv; infer_instance

/-! ## Character-device major lookup (`nvidia_get_chardev_major`)

`/proc/devices` is modelled as the list of its lines, each line carrying its
terminating newline character; `none` models a failed `fopen`. -/

/-- `strstr(3)`: index of the first occurrence of `pat` in `hay`
(`some 0` for an empty pattern). -/
def strstrIdx (hay pat : List Char) : Option Nat :=
  match hay with
  | [] => if pat.isEmpty then some 0 else none
  | _ :: t => if pat.isPrefixOf hay then some 0 else (strstrIdx t pat).map (· + 1)

/-- The digits at the front of the list. -/
def takeDigits (cs : List Char) : List Char := cs.takeWhile (·.isDigit)

/-- Decimal value of a digit string. -/
def digitsToNat (ds : List Char) : Nat :=
  ds.foldl (fun a c => a * 10 + (c.toNat - 48)) 0

/-- `sscanf(line, " %d %*s", &major) == 1`: skip whitespace, then parse an
optionally-signed decimal integer; `none` when no digits follow (the
suppressed `%*s` does not contribute to the return count). -/
def sscanfDecInt (cs : List Char) : Option Int :=
  let cs2 := cs.dropWhile (·.isWhitespace)
  match cs2 with
  | '-' :: rest =>
    let ds := takeDigits rest
    if ds.isEmpty then none else some (-(digitsToNat ds : Int))
  | '+' :: rest =>
    let ds := takeDigits rest
    if ds.isEmpty then none else some (digitsToNat ds)
  | _ =>
    let ds := takeDigits cs2
    if ds.isEmpty then none else some (digitsToNat ds)

/-- The section header searched for by `nvidia_get_chardev_major`. -/
def NV_PROC_DEVICES_HEADER : List Char := "Character devices:\n".toList

/-- The test applied to each section line: `strstr(line, name)` finds a
first occurrence and the character immediately after it is a newline. -/
def lineMatches (name ln : List Char) : Bool :=
  match strstrIdx ln name with
  | some i => ln[i + name.length]? == some '\n'
  | none => false

/-- The scan loop of `nvidia_get_chardev_major` over the lines after the
"Character devices:" header: stop with -1 at a blank line or end of file;
on the first line whose `strstr` match is followed by a newline, return the
line's leading integer (or -1 if the line has none). -/
def scanChardev (name : List Char) : List (List Char) → Int
  | [] => -1
  | ln :: rest =>
    if ln = ['\n'] then -1
    else
      match strstrIdx ln name with
      | some i =>
        if ln[i + name.length]? == some '\n' then
          match sscanfDecInt ln with
          | some major => major
          | none => -1
        else scanChardev name rest
      | none => scanChardev name rest

/-- Skip lines until the "Character devices:" header; `none` when the
header never appears (the subsequent scan then reads nothing). -/
def dropToHeader : List (List Char) → Option (List (List Char))
  | [] => none
  | line :: rest =>
    if line = NV_PROC_DEVICES_HEADER then some rest else dropToHeader rest

/-- `nvidia_get_chardev_major` from nvidia-modprobe-utils.c. -/
def nvidia_get_chardev_major (file : Option (List (List Char)))
    (name : List Char) : Int :=
  match file with
  | none => -1
  | some lines =>
    match dropToHeader lines with
    | none => -1
    | some rest => scanChardev name rest

/-- The "Character devices:" section: the lines up to the first blank
line. -/
def chardevSection (lines : List (List Char)) : List (List Char) :=
  lines.takeWhile (fun l => l != ['\n'])

/-! ## Device-file permission policy (`init_device_file_parameters`) -/

/-- `NV_DEVICE_FILE_MODE` = S_IRUSR|S_IWUSR|S_IRGRP|S_IWGRP|S_IROTH|S_IWOTH. -/
def NV_DEVICE_FILE_MODE : Nat := 0o666

def NV_DEVICE_FILE_UID : Nat := 0

def NV_DEVICE_FILE_GID : Nat := 0

/-- `NV_DEVICE_FILE_MODE_MASK` = S_IRWXU|S_IRWXG|S_IRWXO. -/
def NV_DEVICE_FILE_MODE_MASK : Nat := 0o777

/-- The four outputs of `init_device_file_parameters`. -/
structure DeviceFileParams where
  uid : Nat
  gid : Nat
  mode : Nat
  modify : Nat
deriving DecidableEq

/-- One iteration of the `fscanf(fp, "%31[^:]: %u\n", name, &value)` read
loop: either a parsed "Field: value" pair, or input on which the scan
fails to produce both items (which ends the loop). -/
inductive PolicyLine where
  | ok (name : String) (value : Nat)
  | bad
deriving DecidableEq

def defaultDeviceFileParams : DeviceFileParams :=
  { uid := NV_DEVICE_FILE_UID, gid := NV_DEVICE_FILE_GID,
    mode := NV_DEVICE_FILE_MODE, modify := 1 }

/-- The four name tests in the body of the read loop (both
"ModifyDeviceFiles" and "DeviceFileModify" update `modify`). -/
def applyParam (p : DeviceFileParams) (name : String) (value : Nat) :
    DeviceFileParams :=
  let p1 := if name = "DeviceFileUID" then { p with uid := value } else p
  let p2 := if name = "DeviceFileGID" then { p1 with gid := value } else p1
  let p3 := if name = "DeviceFileMode" then { p2 with mode := value } else p2
  if name = "ModifyDeviceFiles" ∨ name = "DeviceFileModify" then
    { p3 with modify := value }
  else p3

/-- The read loop: fold the parsed pairs into the parameters, stopping at
the first input on which the scan fails. -/
def readParamLines : List PolicyLine → DeviceFileParams → DeviceFileParams
  | [], p => p
  | PolicyLine.bad :: _, p => p
  | PolicyLine.ok n v :: rest, p => readParamLines rest (applyParam p n v)

/-- `init_device_file_parameters` from nvidia-modprobe-utils.c; `none`
models a NULL or empty `proc_path` as well as a failed `fopen`, all of
which leave the defaults in place. -/
def init_device_file_parameters (src : Option (List PolicyLine)) :
    DeviceFileParams :=
  match src with
  | none => defaultDeviceFileParams
  | some ls => readParamLines ls defaultDeviceFileParams

/-! ## Filesystem model for the device-node reconciler -/

inductive FType where
  | chr | reg | dir | lnk | other
deriving DecidableEq

/-- The slice of `struct stat` the reconciler reads: file type, device
number, the low permission bits of `st_mode`, owner, group and inode.
For symbolic links, `target` is the link text (empty otherwise). -/
structure FileStat where
  ftype : FType
  rdev : Nat
  perm : Nat
  uid : Nat
  gid : Nat
  ino : Nat
  target : String
deriving DecidableEq

/-- The filesystem: a finite association of absolute paths to stat
records. -/
abbrev FS := List (String × FileStat)

def fsGet (fs : FS) (p : String) : Option FileStat :=
  match fs.find? (fun e => e.1 == p) with
  | some e => some e.2
  | none => none

def fsSet (fs : FS) (p : String) (st : FileStat) : FS :=
  (p, st) :: fs.filter (fun e => e.1 != p)

def fsDel (fs : FS) (p : String) : FS := fs.filter (fun e => e.1 != p)

def strTake (s : String) (n : Nat) : String := String.mk (s.toList.take n)

def strDrop (s : String) (n : Nat) : String := String.mk (s.toList.drop n)

/-- Resolution of the relative symlink targets this code creates: the
links live in `/dev/char/`, and their targets are written `../<rest>`,
which names `/dev/<rest>`; any other target is taken as absolute. -/
def resolveTarget (t : String) : String :=
  if strTake t 3 = "../" then "/dev/" ++ strDrop t 3 else t

/-- `stat(2)`: follow one symbolic-link level; a link whose target is
missing or is itself a link yields an error (dangling / ELOOP in the
chains this model can express). -/
def statFn (fs : FS) (p : String) : Option FileStat :=
  match fsGet fs p with
  | none => none
  | some st =>
    if st.ftype = FType.lnk then
      match fsGet fs (resolveTarget st.target) with
      | none => none
      | some st2 => if st2.ftype = FType.lnk then none else some st2
    else some st

/-- Failure oracle for the mutating system calls, plus the process
umask. -/
structure World where
  removeFails : String → Bool
  mknodFails : String → Bool
  chmodFails : String → Bool
  chownFails : String → Bool
  symlinkFails : String → Bool
  mkdirFails : String → Bool
  umask : Nat

/-- Mutable state threaded through a reconciliation call: the filesystem
and a fresh-inode counter. -/
structure Sys where
  fs : FS
  nextIno : Nat
deriving DecidableEq

/-- A mutating system call issued by the code; every issued call is
recorded in the trace, whether or not it succeeds. -/
inductive FsOp where
  | mknod (p : String) (mode : Nat) (dev : Nat)
  | remove (p : String)
  | chmod (p : String) (mode : Nat)
  | chown (p : String) (uid gid : Nat)
  | symlink (target p : String)
  | mkdir (p : String)
deriving DecidableEq

/-- The low `st_mode` bits settable by `mknod`/`chmod`. -/
def permBits : Nat := 0o7777

def opRemove (w : World) (s : Sys) (p : String) : Int × Sys :=
  if w.removeFails p then (-1, s)
  else match fsGet s.fs p with
    | some _ => (0, { s with fs := fsDel s.fs p })
    | none => (-1, s)

/-- `mknod(path, S_IFCHR | mode, dev)`: fails if the path exists; the
created node's permission bits are `mode` filtered by the process
umask (which is why the code calls `chmod` afterwards). -/
def opMknod (w : World) (s : Sys) (p : String) (mode dev : Nat) : Int × Sys :=
  if w.mknodFails p then (-1, s)
  else match fsGet s.fs p with
    | some _ => (-1, s)
    | none =>
      (0, { fs := fsSet s.fs p
              { ftype := FType.chr, rdev := dev,
                perm := (mode &&& permBits) &&& (permBits ^^^ (w.umask &&& permBits)),
                uid := 0, gid := 0, ino := s.nextIno, target := "" },
            nextIno := s.nextIno + 1 })

def opChmod (w : World) (s : Sys) (p : String) (mode : Nat) : Int × Sys :=
  if w.chmodFails p then (-1, s)
  else match fsGet s.fs p with
    | some st =>
      (0, { s with fs := fsSet s.fs p { st with perm := mode &&& permBits } })
    | none => (-1, s)

def opChown (w : World) (s : Sys) (p : String) (u g : Nat) : Int × Sys :=
  if w.chownFails p then (-1, s)
  else match fsGet s.fs p with
    | some st => (0, { s with fs := fsSet s.fs p { st with uid := u, gid := g } })
    | none => (-1, s)

/-- `symlink(target, path)`: fails if anything (even a dangling link)
already sits at `path`. -/
def opSymlink (w : World) (s : Sys) (target p : String) : Int × Sys :=
  if w.symlinkFails p then (-1, s)
  else match fsGet s.fs p with
    | some _ => (-1, s)
    | none =>
      (0, { fs := fsSet s.fs p
              { ftype := FType.lnk, rdev := 0, perm := 0o777,
                uid := 0, gid := 0, ino := s.nextIno, target := target },
            nextIno := s.nextIno + 1 })

/-- `mkdir(2)`: the middle component reports whether the failure was
EEXIST (which `nvidia_cap_imex_channel_mknod` tolerates). -/
def opMkdir (w : World) (s : Sys) (p : String) (mode : Nat) :
    Int × Bool × Sys :=
  if w.mkdirFails p then (-1, false, s)
  else match fsGet s.fs p with
    | some _ => (-1, true, s)
    | none =>
      (0, false,
       { fs := fsSet s.fs p
           { ftype := FType.dir, rdev := 0,
             perm := (mode &&& permBits) &&& (permBits ^^^ (w.umask &&& permBits)),
             uid := 0, gid := 0, ino := s.nextIno, target := "" },
         nextIno := s.nextIno + 1 })

/-! ## The device-node reconciler -/

/-- `NV_MAKE_DEVICE(major, minor)` =
`(minor & 0xff) | (major << 8) | ((minor & ~0xff) << 12)`; for the
non-negative minors used here `(minor & ~0xff) << 12 = (minor >> 8) << 20`. -/
def NV_MAKE_DEVICE (major minor : Nat) : Nat :=
  (minor &&& 0xff) ||| (major <<< 8) ||| ((minor >>> 8) <<< 20)

def NV_MAJOR_DEVICE_NUMBER : Nat := 195

def NV_MAX_CHARACTER_DEVICE_FILE_STRLEN : Nat := 128

def NvDeviceFileStateFileExists : Nat := 0

def NvDeviceFileStateChrDevOk : Nat := 1

def NvDeviceFileStatePermissionsOk : Nat := 2

def nvidia_update_file_state (state value : Nat) : Nat := state ||| (1 <<< value)

def nvidia_test_file_state (state value : Nat) : Bool :=
  (state &&& (1 <<< value)) != 0

/-- `get_file_state_helper` from nvidia-modprobe-utils.c (its `proc_path`
argument is unused in the C body and omitted here). -/
def get_file_state_helper (fs : FS) (path : String) (major minor : Nat)
    (uid gid mode : Nat) : Nat :=
  let dev := NV_MAKE_DEVICE major minor
  match statFn fs path with
  | none => 0
  | some st =>
    let s0 := nvidia_update_file_state 0 NvDeviceFileStateFileExists
    let s1 :=
      if st.ftype = FType.chr ∧ st.rdev = dev then
        nvidia_update_file_state s0 NvDeviceFileStateChrDevOk
      else s0
    if (st.perm &&& NV_DEVICE_FILE_MODE_MASK) = mode ∧ st.uid = uid ∧ st.gid = gid then
      nvidia_update_file_state s1 NvDeviceFileStatePermissionsOk
    else s1

/-- Result of a reconciliation call: the C return value, the final state,
and the trace of mutating system calls issued. -/
structure RunRes where
  ret : Int
  sys : Sys
  tr : List FsOp
deriving DecidableEq

/-- `snprintf(symlink_path, ..., NV_CHAR_DEVICE_NAME, major, minor)` with
`NV_CHAR_DEVICE_NAME` = "/dev/char/%d:%d". -/
def charDevLinkPath (major minor : Nat) : String :=
  "/dev/char/" ++ toString major ++ ":" ++ toString minor

/-- `symlink_char_dev` from nvidia-modprobe-utils.c. -/
def symlink_char_dev (w : World) (s : Sys) (major minor : Nat)
    (dev_path : String) : RunRes :=
  let symlink_path := charDevLinkPath major minor
  if symlink_path.length ≥ NV_MAX_CHARACTER_DEVICE_FILE_STRLEN then ⟨0, s, []⟩
  else
    match statFn s.fs dev_path with
    | none => ⟨0, s, []⟩
    | some dev_status =>
      if dev_status.ftype ≠ FType.chr then ⟨0, s, []⟩
      else if strTake dev_path 5 ≠ "/dev/" then ⟨0, s, []⟩
      else
        let dev_rel_path := "../" ++ strDrop dev_path 5
        if dev_rel_path.length ≥ NV_MAX_CHARACTER_DEVICE_FILE_STRLEN then
          ⟨0, s, []⟩
        else
          let r1 := opRemove w s symlink_path
          let r2 := opSymlink w r1.2 dev_rel_path symlink_path
          let tr := [FsOp.remove symlink_path,
                     FsOp.symlink dev_rel_path symlink_path]
          if r2.1 < 0 then
            match statFn r2.2.fs symlink_path with
            | none => ⟨0, r2.2, tr⟩
            | some link_status =>
              if link_status.ino ≠ dev_status.ino then ⟨0, r2.2, tr⟩
              else ⟨1, r2.2, tr⟩
          else ⟨1, r2.2, tr⟩

/-- The `chmod`/`chown`/rollback/symlink tail of `mknod_helper` (from the
"Make sure the permissions and ownership are set correctly" comment
onward); `tr1` is the trace accumulated before this point. -/
def mknod_chmod_chown (w : World) (s1 : Sys) (tr1 : List FsOp)
    (do_mknod : Bool) (major minor : Nat) (path : String)
    (p : DeviceFileParams) : RunRes :=
  let rc := opChmod w s1 path p.mode
  if rc.1 ≠ 0 then
    if do_mknod then
      let rr := opRemove w rc.2 path
      ⟨0, rr.2, tr1 ++ [FsOp.chmod path p.mode, FsOp.remove path]⟩
    else ⟨0, rc.2, tr1 ++ [FsOp.chmod path p.mode]⟩
  else
    let ro := opChown w rc.2 path p.uid p.gid
    if ro.1 ≠ 0 then
      if do_mknod then
        let rr := opRemove w ro.2 path
        ⟨0, rr.2, tr1 ++ [FsOp.chmod path p.mode,
                          FsOp.chown path p.uid p.gid, FsOp.remove path]⟩
      else ⟨0, ro.2, tr1 ++ [FsOp.chmod path p.mode,
                             FsOp.chown path p.uid p.gid]⟩
    else
      let rs := symlink_char_dev w ro.2 major minor path
      ⟨rs.ret, rs.sys,
       tr1 ++ [FsOp.chmod path p.mode, FsOp.chown path p.uid p.gid] ++ rs.tr⟩

/-- The `if (do_mknod) mknod(...)` step of `mknod_helper` followed by the
permission tail. -/
def mknod_helper_create (w : World) (s : Sys) (tr0 : List FsOp)
    (do_mknod : Bool) (major minor : Nat) (path : String)
    (p : DeviceFileParams) : RunRes :=
  if do_mknod then
    let dev := NV_MAKE_DEVICE major minor
    let r := opMknod w s path p.mode dev
    if r.1 ≠ 0 then ⟨0, r.2, tr0 ++ [FsOp.mknod path p.mode dev]⟩
    else mknod_chmod_chown w r.2 (tr0 ++ [FsOp.mknod path p.mode dev])
      do_mknod major minor path p
  else mknod_chmod_chown w s tr0 do_mknod major minor path p

/-- `mknod_helper` from nvidia-modprobe-utils.c. -/
def mknod_helper (w : World) (s : Sys) (major minor : Nat) (path : String)
    (src : Option (List PolicyLine)) : RunRes :=
  if path = "" then ⟨0, s, []⟩
  else
    let p := init_device_file_parameters src
    if p.modify ≠ 1 then symlink_char_dev w s major minor path
    else
      let state := get_file_state_helper s.fs path major minor p.uid p.gid p.mode
      if nvidia_test_file_state state NvDeviceFileStateFileExists ∧
         nvidia_test_file_state state NvDeviceFileStateChrDevOk ∧
         nvidia_test_file_state state NvDeviceFileStatePermissionsOk then
        symlink_char_dev w s major minor path
      else
        if ¬ nvidia_test_file_state state NvDeviceFileStateFileExists then
          mknod_helper_create w s [] true major minor path p
        else if ¬ nvidia_test_file_state state NvDeviceFileStateChrDevOk then
          let r := opRemove w s path
          if r.1 ≠ 0 then ⟨0, r.2, [FsOp.remove path]⟩
          else mknod_helper_create w r.2 [FsOp.remove path] true major minor path p
        else
          mknod_helper_create w s [] false major minor path p

/-! ## Callers of the reconciler -/

def NV_UVM_MODULE_NAME : String := "nvidia-uvm"

def NV_UVM_DEVICE_NAME : String := "/dev/nvidia-uvm"

def NV_UVM_TOOLS_DEVICE_NAME : String := "/dev/nvidia-uvm-tools"

/-- `nvidia_uvm_mknod` from nvidia-modprobe-utils.c: look up the
dynamically registered "nvidia-uvm" major and reconcile the two
unified-memory nodes with a NULL policy path (`&&` short-circuits, so the
second call runs only if the first succeeded). -/
def nvidia_uvm_mknod (w : World) (s : Sys)
    (devicesFile : Option (List (List Char))) (base_minor : Nat) : RunRes :=
  let major := nvidia_get_chardev_major devicesFile NV_UVM_MODULE_NAME.toList
  if major < 0 then ⟨0, s, []⟩
  else
    let r1 := mknod_helper w s major.toNat base_minor NV_UVM_DEVICE_NAME none
    if r1.ret = 0 then ⟨0, r1.sys, r1.tr⟩
    else
      let r2 := mknod_helper w r1.sys major.toNat (base_minor + 1)
        NV_UVM_TOOLS_DEVICE_NAME none
      ⟨if r2.ret ≠ 0 then 1 else 0, r2.sys, r1.tr ++ r2.tr⟩

def NV_CAPS_IMEX_CHANNELS_MODULE_NAME : String := "nvidia-caps-imex-channels"

def imexChannelsDir : String := "/dev/" ++ NV_CAPS_IMEX_CHANNELS_MODULE_NAME

/-- `snprintf(name, ..., NV_CAPS_IMEX_CHANNEL_DEVICE_NAME, minor)` with
template "/dev/nvidia-caps-imex-channels/channel%d". -/
def imexChannelDeviceName (minor : Nat) : String :=
  imexChannelsDir ++ "/channel" ++ toString minor

/-- `nvidia_cap_imex_channel_mknod` from nvidia-modprobe-utils.c:
reconciles with the dynamically discovered
"nvidia-caps-imex-channels" major. -/
def nvidia_cap_imex_channel_mknod (w : World) (s : Sys)
    (devicesFile : Option (List (List Char)))
    (procRegistry : Option (List PolicyLine)) (minor : Nat) : RunRes :=
  let major := nvidia_get_chardev_major devicesFile
    NV_CAPS_IMEX_CHANNELS_MODULE_NAME.toList
  if major < 0 then ⟨0, s, []⟩
  else
    let rd := opMkdir w s imexChannelsDir 0o755
    if rd.1 ≠ 0 ∧ rd.2.1 = false then
      ⟨0, rd.2.2, [FsOp.mkdir imexChannelsDir]⟩
    else
      let name := imexChannelDeviceName minor
      if name.length ≥ NV_MAX_CHARACTER_DEVICE_FILE_STRLEN then
        ⟨0, rd.2.2, [FsOp.mkdir imexChannelsDir]⟩
      else
        let r := mknod_helper w rd.2.2 major.toNat minor name procRegistry
        ⟨r.ret, r.sys, FsOp.mkdir imexChannelsDir :: r.tr⟩

/-- `nvidia_cap_imex_channel_file_state` from nvidia-modprobe-utils.c.
Note that the observation passes `NV_MAJOR_DEVICE_NUMBER` (195) to
`get_file_state_helper`, not the `major` it just looked up. -/
def nvidia_cap_imex_channel_file_state (fs : FS)
    (devicesFile : Option (List (List Char)))
    (procRegistry : Option (List PolicyLine)) (minor : Nat) : Nat :=
  let major := nvidia_get_chardev_major devicesFile
    NV_CAPS_IMEX_CHANNELS_MODULE_NAME.toList
  if major < 0 then 0
  else
    let path := imexChannelDeviceName minor
    if path.length ≥ NV_MAX_CHARACTER_DEVICE_FILE_STRLEN then 0
    else
      let p := init_device_file_parameters procRegistry
      get_file_state_helper fs path NV_MAJOR_DEVICE_NUMBER minor p.uid p.gid p.mode

/-! ## PCI enumeration and the modprobe fail-fast gate -/

/-- `PCI_MATCH_ANY` = `~0U`. -/
def PCI_MATCH_ANY : Nat := 0xFFFFFFFF

def PCI_BASE_CLASS_MASK : Nat := 0xff00

def PCI_ID_COMPARE (a b : Nat) : Bool := a == PCI_MATCH_ANY || a == b

structure pci_id_match where
  vendor_id : Nat
  device_id : Nat
  subvendor_id : Nat
  subdevice_id : Nat
  device_class : Nat
  device_class_mask : Nat
deriving DecidableEq

/-- The identification fields `find_matches` extracts from the first 48
bytes of a device's configuration space (vendor/device at bytes 0-3,
class code at 10-11, subsystem ids at 44-47). -/
structure PciCfg where
  vendor_id : Nat
  device_id : Nat
  subvendor_id : Nat
  subdevice_id : Nat
  device_class : Nat
deriving DecidableEq

/-- Reading one device's configuration space: a full 48-byte read, a
short error-free read (the device is silently skipped), or a read error
`e` (an `errno`), which aborts the enumeration when nonzero. -/
inductive DevRead where
  | ok (cfg : PciCfg)
  | short
  | fail (e : Nat)
deriving DecidableEq

def devMatches (m : pci_id_match) (c : PciCfg) : Bool :=
  PCI_ID_COMPARE m.vendor_id c.vendor_id &&
  PCI_ID_COMPARE m.device_id c.device_id &&
  PCI_ID_COMPARE m.subvendor_id c.subvendor_id &&
  PCI_ID_COMPARE m.subdevice_id c.subdevice_id &&
  ((c.device_class &&& m.device_class_mask) == m.device_class)

/-- `find_matches` from pci-sysfs.c, returning (err, num_matches): count
the matching devices, aborting with the error of the first failing
config-space read. -/
def find_matches (m : pci_id_match) : List DevRead → Nat → Nat × Nat
  | [], n => (0, n)
  | DevRead.ok c :: rest, n =>
    find_matches m rest (if devMatches m c then n + 1 else n)
  | DevRead.short :: rest, n => find_matches m rest n
  | DevRead.fail e :: rest, n =>
    if e ≠ 0 then (e, n) else find_matches m rest n

/-- The `/sys/bus/pci/devices` tree as seen by one enumeration:
`dirErrno` is the `errno` reported when the directory cannot be opened. -/
structure PciEnv where
  dirExists : Bool
  dirErrno : Nat
  devs : List DevRead

/-- `pci_enum_match_id` from pci-sysfs.c: `errno` when the bus-device
directory is unavailable, otherwise the fold over the device entries. -/
def pci_enum_match_id (env : PciEnv) (m : pci_id_match) : Nat × Nat :=
  if env.dirExists then find_matches m env.devs 0 else (env.dirErrno, 0)

/-- The `id_match` built by `modprobe_helper`: NVIDIA vendor, any device,
display base class. -/
def nvidia_id_match : pci_id_match :=
  { vendor_id := 0x10DE, device_id := PCI_MATCH_ANY,
    subvendor_id := PCI_MATCH_ANY, subdevice_id := PCI_MATCH_ANY,
    device_class := 0x0300, device_class_mask := PCI_BASE_CLASS_MASK }

/-- Environment of one `modprobe_helper` call; the fields after `euid`
summarize the loader-execution tail (steps that fork and exec cannot be
embedded, and the C code itself decides success by re-reading the module
table, summarized by `loadedAfterExec`). -/
structure MpEnv where
  pci : PciEnv
  socFamily : Option String
  euid : Nat
  modprobePathOk : Bool
  forkFails : Bool
  loadedAfterExec : Bool

/-- `is_tegra`: read up to 6 bytes of `/sys/devices/soc0/family`,
truncate to 5 characters, and compare with "Tegra"; `none` models an
unreadable file. -/
def is_tegra (env : MpEnv) : Bool :=
  match env.socFamily with
  | none => false
  | some s => strTake s 5 == "Tegra"

/-- Where `modprobe_helper` returned. -/
inductive MpExit where
  | emptyName | alreadyLoaded | noDevices | notRoot | loaderBad | forkFailed
  | execAttempted
deriving DecidableEq

/-- The tail of `modprobe_helper` after the PCI gate: privilege check,
loader-path validation, fork/exec, and the final re-check of the module
table. -/
def modprobe_load_attempt (env : MpEnv) : Int × MpExit :=
  if env.euid ≠ 0 then (0, MpExit.notRoot)
  else if ¬ env.modprobePathOk then (0, MpExit.loaderBad)
  else if env.forkFails then (0, MpExit.forkFailed)
  else ((if env.loadedAfterExec then 1 else 0), MpExit.execAttempted)

/-- `modprobe_helper` from nvidia-modprobe-utils.c (the `print_errors`
argument only controls diagnostics and is omitted). -/
def modprobe_helper (env : MpEnv) (table : Option (List (List Char)))
    (module_name : List Char) (allow_on_tegra : Bool) : Int × MpExit :=
  if module_name = [] then (0, MpExit.emptyName)
  else if is_kernel_module_loaded table module_name then
    (1, MpExit.alreadyLoaded)
  else
    let em := pci_enum_match_id env.pci nvidia_id_match
    if em.1 = 0 ∧ em.2 = 0 then
      if !allow_on_tegra || !(is_tegra env) then (0, MpExit.noDevices)
      else modprobe_load_attempt env
    else modprobe_load_attempt env

/-! ## Concrete fixtures used by the example theorems -/

/-- A world in which every mutating system call succeeds and the umask is
0. -/
def allOkWorld : World :=
  { removeFails := fun _ => false, mknodFails := fun _ => false,
    chmodFails := fun _ => false, chownFails := fun _ => false,
    symlinkFails := fun _ => false, mkdirFails := fun _ => false,
    umask := 0 }

/-- A `/proc/devices` in which "nvidia-caps-imex-channels" has the
dynamically assigned major 234. -/
def imexRegistry234 : List (List Char) :=
  [NV_PROC_DEVICES_HEADER, "234 nvidia-caps-imex-channels\n".toList, ['\n']]

/-- A `/proc/devices` in which "nvidia-uvm" has major 508. -/
def uvmRegistry508 : List (List Char) :=
  [NV_PROC_DEVICES_HEADER, "508 nvidia-uvm\n".toList, ['\n']]

/-- First reconciliation of /dev/nvidia0 (major 195, minor 0, default
policy) on an empty filesystem. -/
def nvidia0FirstRun : RunRes :=
  mknod_helper allOkWorld ⟨[], 50⟩ 195 0 "/dev/nvidia0" none

/-- Immediate second reconciliation with nothing changed in between. -/
def nvidia0SecondRun : RunRes :=
  mknod_helper allOkWorld nvidia0FirstRun.sys 195 0 "/dev/nvidia0" none

/-- A world in which only `chown("/dev/nvidia0", ...)` fails. -/
def chownFailWorld : World :=
  { allOkWorld with chownFails := fun p => p == "/dev/nvidia0" }

/-- A world in which only `chmod("/dev/nvidia0", ...)` fails. -/
def chmodFailWorld : World :=
  { allOkWorld with chmodFails := fun p => p == "/dev/nvidia0" }

/-- A pre-existing correct character device at /dev/nvidia0 whose mode is
0600 (so only the permission-fix step has work to do). -/
def preexisting600 : FileStat :=
  { ftype := FType.chr, rdev := NV_MAKE_DEVICE 195 0, perm := 0o600,
    uid := 0, gid := 0, ino := 42, target := "" }

/-! ## Theorems: module-name comparison -/

theorem charEquiv_refl (a : Char) : charEquiv a a := Or.inl rfl

theorem bothDash_iff {a b : Char} :
    bothDash a b = true ↔ (a = '-' ∨ a = '_') ∧ (b = '-' ∨ b = '_') := by
  simp [bothDash]

theorem bothDash_toNat_ne {a b : Char} (h : bothDash a b = true) :
    a.toNat ≠ 0 ∧ b.toNat ≠ 0 := by
  have h' := bothDash_iff.mp h
  constructor
  · rcases h'.1 with h1 | h1 <;> subst h1 <;> decide
  · rcases h'.2 with h1 | h1 <;> subst h1 <;> decide

theorem charEquiv_symm {a b : Char} (h : charEquiv a b) : charEquiv b a := by
  rcases h with h | h
  · exact Or.inl h.symm
  · have h' := bothDash_iff.mp h
    exact Or.inr (bothDash_iff.mpr ⟨h'.2, h'.1⟩)

theorem charEquiv_trans {a b c : Char} (h1 : charEquiv a b)
    (h2 : charEquiv b c) : charEquiv a c := by
  rcases h1 with h1 | h1
  · exact h1 ▸ h2
  · rcases h2 with h2 | h2
    · exact Or.inr (h2 ▸ h1)
    · exact Or.inr (bothDash_iff.mpr ⟨(bothDash_iff.mp h1).1, (bothDash_iff.mp h2).2⟩)

theorem char_toNat_inj {a b : Char} (h : a.toNat = b.toNat) : a = b :=
  Char.eq_of_val_eq (UInt32.ext h)

/-- Stepping `modcmp` over a `charEquiv`-related pair of head characters. -/
theorem modcmp_cons_equiv {a b : Char} (h : charEquiv a b) (as bs : List Char) :
    modcmp (a :: as) (b :: bs) = modcmp as bs := by
  rcases h with h | h
  · subst h; simp [modcmp]
  · by_cases h2 : a = b
    · subst h2; simp [modcmp]
    · simp [modcmp, h2, h]

/-- At the first real difference `modcmp` returns a nonzero value. -/
theorem modcmp_cons_ne {a b : Char} (h : ¬ charEquiv a b)
    (as bs : List Char) : modcmp (a :: as) (b :: bs) ≠ 0 := by
  unfold charEquiv at h
  push_neg at h
  obtain ⟨hne, hd⟩ := h
  have heq : modcmp (a :: as) (b :: bs) = (a.toNat : Int) - (b.toNat : Int) := by
    simp [modcmp, hne, hd]
  rw [heq]
  intro h0
  have h2 : a.toNat = b.toNat := by omega
  exact hne (char_toNat_inj h2)

theorem modcmp_self (a : List Char) : modcmp a a = 0 := by
  induction a with
  | nil => rfl
  | cons c t ih => rw [modcmp_cons_equiv (charEquiv_refl c)]; exact ih

/-- `modcmp` returns 0 exactly on `charEquiv`-related strings, provided
neither contains an interior NUL (the C-string validity condition). -/
theorem modcmp_eq_zero_iff :
    ∀ (a b : List Char), (∀ c ∈ a, c.toNat ≠ 0) → (∀ c ∈ b, c.toNat ≠ 0) →
      (modcmp a b = 0 ↔ List.Forall₂ charEquiv a b)
  | [], [] , _, _ => by simp [modcmp]
  | [], b :: bs, _, hb => by
    constructor
    · intro h
      have : b.toNat = 0 := by
        have h' : -(b.toNat : Int) = 0 := h
        omega
      exact absurd this (hb b (by simp))
    · intro h; exact absurd h (by simp)
  | a :: as, [], ha, _ => by
    constructor
    · intro h
      have : a.toNat = 0 := by
        have h' : (a.toNat : Int) = 0 := h
        omega
      exact absurd this (ha a (by simp))
    · intro h; exact absurd h (by simp)
  | a :: as, b :: bs, ha, hb => by
    have ih := modcmp_eq_zero_iff as bs
      (fun c hc => ha c (List.mem_cons_of_mem _ hc))
      (fun c hc => hb c (List.mem_cons_of_mem _ hc))
    by_cases hab : charEquiv a b
    · rw [modcmp_cons_equiv hab, ih, List.forall₂_cons]
      exact ⟨fun h => ⟨hab, h⟩, fun h => h.2⟩
    · constructor
      · intro h; exact absurd h (modcmp_cons_ne hab as bs)
      · intro h
        rcases h with _ | ⟨hce, _⟩
        exact absurd hce hab

/-- If the first string is strictly shorter than the second and the second
is NUL-free, `modcmp` cannot return 0 (the length mismatch is detected when
the first string runs out). -/
theorem modcmp_ne_zero_of_length_lt :
    ∀ (a b : List Char), a.length < b.length → (∀ c ∈ b, c.toNat ≠ 0) →
      modcmp a b ≠ 0
  | [], [], h, _ => by omega
  | [], b :: bs, _, hb => by
    intro h
    have h' : -(b.toNat : Int) = 0 := h
    exact hb b (by simp) (by omega)
  | a :: as, [], h, _ => by simp at h
  | a :: as, b :: bs, h, hb => by
    have ih := modcmp_ne_zero_of_length_lt as bs (by simpa using h)
      (fun c hc => hb c (List.mem_cons_of_mem _ hc))
    by_cases hab : charEquiv a b
    · rw [modcmp_cons_equiv hab]; exact ih
    · exact modcmp_cons_ne hab as bs

/-- Replacing the right argument by a `charEquiv`-related string does not
change whether `modcmp` returns 0. -/
theorem modcmp_zero_congr_right {q1 q2 : List Char}
    (h : List.Forall₂ charEquiv q1 q2) :
    ∀ a : List Char, (modcmp a q1 = 0 ↔ modcmp a q2 = 0) := by
  induction h with
  | nil => intro a; exact Iff.rfl
  | @cons c d t1 t2 hcd _ ih =>
    intro a
    cases a with
    | nil =>
      show -(c.toNat : Int) = 0 ↔ -(d.toNat : Int) = 0
      rcases hcd with h1 | h1
      · rw [h1]
      · have h2 := bothDash_toNat_ne h1
        constructor
        · intro h0; exact absurd (show c.toNat = 0 by omega) h2.1
        · intro h0; exact absurd (show d.toNat = 0 by omega) h2.2
    | cons x xs =>
      by_cases hxc : charEquiv x c
      · have hxd : charEquiv x d := charEquiv_trans hxc hcd
        rw [modcmp_cons_equiv hxc, modcmp_cons_equiv hxd]
        exact ih xs
      · have hxd : ¬ charEquiv x d := fun h2 =>
          hxc (charEquiv_trans h2 (charEquiv_symm hcd))
        constructor
        · intro h0; exact absurd h0 (modcmp_cons_ne hxc xs t1)
        · intro h0; exact absurd h0 (modcmp_cons_ne hxd xs t2)

/-- `is_kernel_module_loaded` cannot distinguish `charEquiv`-related query
names. -/
theorem is_kernel_module_loaded_congr {q1 q2 : List Char}
    (h : List.Forall₂ charEquiv q1 q2) (table : Option (List (List Char))) :
    is_kernel_module_loaded table q1 = is_kernel_module_loaded table q2 := by
  cases table with
  | none => rfl
  | some tokens =>
    simp only [is_kernel_module_loaded]
    have hfun : (fun t : List Char => modcmp (t.take 15) q1 == 0)
        = (fun t : List Char => modcmp (t.take 15) q2 == 0) := by
      funext t
      have h2 := modcmp_zero_congr_right h (t.take 15)
      by_cases h1 : modcmp (t.take 15) q1 = 0
      · simp [h1, h2.mp h1]
      · have h3 : modcmp (t.take 15) q2 ≠ 0 := fun hc => h1 (h2.mpr hc)
        simp [h1, h3]
    rw [hfun]

/-- A query longer than 15 NUL-free characters never matches any stored
(15-character-truncated) token. -/
theorem is_kernel_module_loaded_long_name (table : List (List Char))
    (name : List Char) (hlen : 15 < name.length)
    (hnul : ∀ c ∈ name, c.toNat ≠ 0) :
    is_kernel_module_loaded (some table) name = false := by
  simp only [is_kernel_module_loaded, List.any_eq_false]
  intro t _
  have h1 : (t.take 15).length < name.length :=
    lt_of_le_of_lt (show (t.take 15).length ≤ 15 by simp) hlen
  simpa using modcmp_ne_zero_of_length_lt (t.take 15) name h1 hnul

/-! ## Theorems: character-device major lookup -/

theorem scanChardev_no_match (name : List Char) :
    ∀ lines : List (List Char),
      (chardevSection lines).find? (lineMatches name) = none →
      scanChardev name lines = -1 := by
  intro lines
  induction lines with
  | nil => intro _; rfl
  | cons line rest ih =>
    intro h
    by_cases hb : line = ['\n']
    · simp [scanChardev, hb]
    · have hsect : chardevSection (line :: rest)
          = line :: chardevSection rest := by
        simp [chardevSection, List.takeWhile_cons, hb]
      rw [hsect, List.find?_cons] at h
      by_cases hm : lineMatches name line = true
      · simp [hm] at h
      · rw [Bool.not_eq_true] at hm
        rw [hm] at h
        have hrec := ih h
        unfold lineMatches at hm
        simp only [scanChardev, if_neg hb]
        cases hidx : strstrIdx line name with
        | none => simpa [hidx] using hrec
        | some i =>
          simp only [hidx] at hm
          simp [hidx, hm, hrec]

theorem scanChardev_first_match (name : List Char) :
    ∀ (lines : List (List Char)) (l : List Char) (m : Int),
      (chardevSection lines).find? (lineMatches name) = some l →
      sscanfDecInt l = some m →
      scanChardev name lines = m := by
  intro lines
  induction lines with
  | nil => intro l m h _; simp [chardevSection] at h
  | cons line rest ih =>
    intro l m h hparse
    by_cases hb : line = ['\n']
    · rw [show chardevSection (line :: rest) = [] by
        simp [chardevSection, List.takeWhile_cons, hb]] at h
      simp at h
    · have hsect : chardevSection (line :: rest)
          = line :: chardevSection rest := by
        simp [chardevSection, List.takeWhile_cons, hb]
      rw [hsect, List.find?_cons] at h
      by_cases hm : lineMatches name line = true
      · rw [hm] at h
        have hl : l = line := by injection h with h1; exact h1.symm
        have hparse2 : sscanfDecInt line = some m := hl ▸ hparse
        unfold lineMatches at hm
        cases hidx : strstrIdx line name with
        | none => rw [hidx] at hm; simp at hm
        | some i =>
          simp only [hidx] at hm
          simp [scanChardev, hb, hidx, hm, hparse2]
      · rw [Bool.not_eq_true] at hm
        rw [hm] at h
        have hrec := ih l m h hparse
        unfold lineMatches at hm
        simp only [scanChardev, if_neg hb]
        cases hidx : strstrIdx line name with
        | none => simpa [hidx] using hrec
        | some i =>
          simp only [hidx] at hm
          simp [hidx, hm, hrec]

/-! ## Theorems: policy reader -/

theorem readParamLines_append_bad :
    ∀ (good : List PolicyLine) (rest : List PolicyLine) (p : DeviceFileParams),
      PolicyLine.bad ∉ good →
      readParamLines (good ++ PolicyLine.bad :: rest) p = readParamLines good p
  | [], _, _, _ => rfl
  | PolicyLine.ok n v :: more, rest, p, h =>
    readParamLines_append_bad more rest (applyParam p n v)
      (fun hmem => h (List.mem_cons_of_mem _ hmem))
  | PolicyLine.bad :: _, _, _, h => absurd (by simp) h

/-- C9: the policy reader never errors: an absent or unreadable source
yields exactly {uid=0, gid=0, mode=0666, modify-allowed=1}; a source with
a malformed line yields whatever was parsed before it (defaults for the
rest); both "ModifyDeviceFiles" and "DeviceFileModify" update the
modify-allowed field; unrecognized field names leave the parameters
unchanged. -/
theorem policy_reader_never_errors :
    (init_device_file_parameters none = defaultDeviceFileParams
      ∧ defaultDeviceFileParams = ⟨0, 0, 0o666, 1⟩)
    ∧ (∀ (good rest : List PolicyLine), PolicyLine.bad ∉ good →
        init_device_file_parameters (some (good ++ PolicyLine.bad :: rest))
          = init_device_file_parameters (some good))
    ∧ (∀ (p : DeviceFileParams) (v : Nat),
        (applyParam p "ModifyDeviceFiles" v).modify = v
        ∧ (applyParam p "DeviceFileModify" v).modify = v)
    ∧ (∀ (p : DeviceFileParams) (n : String) (v : Nat),
        n ≠ "DeviceFileUID" → n ≠ "DeviceFileGID" → n ≠ "DeviceFileMode" →
        n ≠ "ModifyDeviceFiles" → n ≠ "DeviceFileModify" →
        applyParam p n v = p) := by
  refine ⟨⟨rfl, rfl⟩, ?_, ?_, ?_⟩
  · intro good rest h
    exact readParamLines_append_bad good rest defaultDeviceFileParams h
  · intro p v
    constructor <;> simp [applyParam]
  · intro p n v h1 h2 h3 h4 h5
    simp [applyParam, h1, h2, h3, h4, h5]

theorem policy_reader_never_errors_witness :
    init_device_file_parameters
        (some ([PolicyLine.ok "DeviceFileMode" 0o640]
          ++ PolicyLine.bad :: [PolicyLine.ok "DeviceFileUID" 7]))
      = init_device_file_parameters (some [PolicyLine.ok "DeviceFileMode" 0o640])
    ∧ (applyParam defaultDeviceFileParams "ModifyDeviceFiles" 0).modify = 0
    ∧ applyParam defaultDeviceFileParams "RmCoreDumpLimit" 9
        = defaultDeviceFileParams :=
  ⟨policy_reader_never_errors.2.1 [PolicyLine.ok "DeviceFileMode" 0o640]
      [PolicyLine.ok "DeviceFileUID" 7] (by decide),
   (policy_reader_never_errors.2.2.1 defaultDeviceFileParams 0).1,
   policy_reader_never_errors.2.2.2 defaultDeviceFileParams "RmCoreDumpLimit" 9
     (by decide) (by decide) (by decide) (by decide) (by decide)⟩

/-! ## Theorems: character-device major lookup (claims) -/

/-- C6: `nvidia_get_chardev_major` returns the leading major number of the
first section line whose `strstr` match for the queried name is followed
immediately by a newline, and -1 when no section line matches (also when
the file is unreadable or the "Character devices:" header is absent); in
particular a table containing "195 nvidia-uvm" does not satisfy a lookup
for "nvidia". -/
theorem chardev_major_newline_boundary :
    (nvidia_get_chardev_major
        (some [NV_PROC_DEVICES_HEADER, "195 nvidia-uvm\n".toList, ['\n']])
        ("nvidia".toList) = -1)
    ∧ (∀ (lines rest : List (List Char)) (name : List Char),
        dropToHeader lines = some rest →
        ((chardevSection rest).find? (lineMatches name) = none →
          nvidia_get_chardev_major (some lines) name = -1)
        ∧ (∀ (l : List Char) (m : Int),
            (chardevSection rest).find? (lineMatches name) = some l →
            sscanfDecInt l = some m →
            nvidia_get_chardev_major (some lines) name = m))
    ∧ (∀ (lines : List (List Char)) (name : List Char),
        dropToHeader lines = none →
        nvidia_get_chardev_major (some lines) name = -1)
    ∧ (∀ name : List Char, nvidia_get_chardev_major none name = -1) := by
  refine ⟨by decide, ?_, ?_, fun _ => rfl⟩
  · intro lines rest name hdrop
    constructor
    · intro hnone
      simp only [nvidia_get_chardev_major, hdrop]
      exact scanChardev_no_match name rest hnone
    · intro l m hfind hparse
      simp only [nvidia_get_chardev_major, hdrop]
      exact scanChardev_first_match name rest l m hfind hparse
  · intro lines name hdrop
    simp only [nvidia_get_chardev_major, hdrop]

theorem chardev_major_newline_boundary_witness :
    nvidia_get_chardev_major (some uvmRegistry508) ("nvidia-uvm".toList) = 508
    ∧ nvidia_get_chardev_major (some uvmRegistry508) ("nvidia-frontend".toList) = -1 :=
  ⟨chardev_major_newline_boundary.2.1 uvmRegistry508
      ["508 nvidia-uvm\n".toList, ['\n']] ("nvidia-uvm".toList) (by decide)
      |>.2 ("508 nvidia-uvm\n".toList) 508 (by decide) (by decide),
   chardev_major_newline_boundary.2.1 uvmRegistry508
      ["508 nvidia-uvm\n".toList, ['\n']] ("nvidia-frontend".toList) (by decide)
      |>.1 (by decide)⟩

/-! ## Theorems: loaded-module check (claims) -/

/-- C7 counterexample: the line token "nvidia_vgpu_vfio" is 16 characters
long and agrees with the query "nvidia-vgpu-vfio" on the shared
15-character prefix under the '-'/'_'-insensitive comparison, yet the
module is reported as NOT loaded (the claim asserts it is reported as
loaded). -/
theorem module_truncation_cex :
    ("nvidia_vgpu_vfio".toList.length = 16
      ∧ modcmp ("nvidia_vgpu_vfio".toList.take 15)
          ("nvidia-vgpu-vfio".toList.take 15) = 0)
    ∧ is_kernel_module_loaded (some ["nvidia_vgpu_vfio".toList])
        ("nvidia-vgpu-vfio".toList) = false := by
  decide

/-- C7 (amended): the check reads at most 15 characters of each token;
consequently a query for a full untruncated name longer than 15 NUL-free
characters is never reported as loaded (the stored token ends where the
query continues), while a query equal to the 15-character truncation is
reported as loaded. -/
theorem module_truncation_behavior :
    (∀ (table : List (List Char)) (name : List Char),
      15 < name.length → (∀ c ∈ name, c.toNat ≠ 0) →
      is_kernel_module_loaded (some table) name = false)
    ∧ (∀ t : List Char, is_kernel_module_loaded (some [t]) (t.take 15) = true) := by
  constructor
  · exact is_kernel_module_loaded_long_name
  · intro t
    simp [is_kernel_module_loaded, modcmp_self]

theorem module_truncation_behavior_witness :
    is_kernel_module_loaded (some ["nvidia_vgpu_vfio".toList, "nvidia".toList])
        ("nvidia-vgpu-vfioX".toList) = false
    ∧ is_kernel_module_loaded (some ["nvidia_vgpu_vfio".toList])
        ("nvidia_vgpu_vfio".toList.take 15) = true :=
  ⟨module_truncation_behavior.1 ["nvidia_vgpu_vfio".toList, "nvidia".toList]
      ("nvidia-vgpu-vfioX".toList) (by decide) (by decide),
   module_truncation_behavior.2 ("nvidia_vgpu_vfio".toList)⟩

/-- C8: `is_kernel_module_loaded` answers identically for "nvidia_uvm"
and "nvidia-uvm" on every module table; in general `modcmp` compares
equal exactly when the two NUL-free names agree position by position up
to interchanging '-' and '_'. -/
theorem module_name_dash_underscore_equiv :
    (∀ table : Option (List (List Char)),
      is_kernel_module_loaded table ("nvidia_uvm".toList)
        = is_kernel_module_loaded table ("nvidia-uvm".toList))
    ∧ (∀ a b : List Char, (∀ c ∈ a, c.toNat ≠ 0) → (∀ c ∈ b, c.toNat ≠ 0) →
        (modcmp a b = 0 ↔ List.Forall₂ charEquiv a b)) := by
  constructor
  · intro table
    refine is_kernel_module_loaded_congr ?_ table
    refine List.Forall₂.cons (by decide) ?_
    refine List.Forall₂.cons (by decide) ?_
    refine List.Forall₂.cons (by decide) ?_
    refine List.Forall₂.cons (by decide) ?_
    refine List.Forall₂.cons (by decide) ?_
    refine List.Forall₂.cons (by decide) ?_
    refine List.Forall₂.cons (by decide) ?_
    refine List.Forall₂.cons (by decide) ?_
    refine List.Forall₂.cons (by decide) ?_
    exact List.Forall₂.cons (by decide) List.Forall₂.nil
  · exact modcmp_eq_zero_iff

theorem module_name_dash_underscore_equiv_witness :
    is_kernel_module_loaded (some ["nvidia_uvm".toList]) ("nvidia_uvm".toList)
      = is_kernel_module_loaded (some ["nvidia_uvm".toList]) ("nvidia-uvm".toList)
    ∧ (modcmp ("nv-a".toList) ("nv_a".toList) = 0
        ↔ List.Forall₂ charEquiv ("nv-a".toList) ("nv_a".toList)) :=
  ⟨module_name_dash_underscore_equiv.1 (some ["nvidia_uvm".toList]),
   module_name_dash_underscore_equiv.2 ("nv-a".toList) ("nv_a".toList)
     (by decide) (by decide)⟩

/-! ## Theorems: IMEX channel reconcile/observe (claim C1) -/

/-- C1: with "nvidia-caps-imex-channels" registered at major 234,
`nvidia_cap_imex_channel_mknod 0` succeeds, creating the node with device
number `NV_MAKE_DEVICE 234 0`; but `nvidia_cap_imex_channel_file_state 0`
on the unchanged filesystem reports state 5 — the file exists and its
permissions are correct, yet the correct-character-device flag is false,
because the observation compares against `NV_MAKE_DEVICE 195 0`
(`NV_MAJOR_DEVICE_NUMBER`) instead of the discovered major it just looked
up, contradicting the claim that all three flags are reported set. -/
theorem imex_observe_fixed_major_divergence :
    (nvidia_cap_imex_channel_mknod allOkWorld ⟨[], 100⟩
        (some imexRegistry234) none 0).ret = 1
    ∧ nvidia_cap_imex_channel_file_state
        (nvidia_cap_imex_channel_mknod allOkWorld ⟨[], 100⟩
          (some imexRegistry234) none 0).sys.fs
        (some imexRegistry234) none 0 = 5
    ∧ nvidia_test_file_state 5 NvDeviceFileStateFileExists = true
    ∧ nvidia_test_file_state 5 NvDeviceFileStateChrDevOk = false
    ∧ nvidia_test_file_state 5 NvDeviceFileStatePermissionsOk = true
    ∧ fsGet (nvidia_cap_imex_channel_mknod allOkWorld ⟨[], 100⟩
          (some imexRegistry234) none 0).sys.fs (imexChannelDeviceName 0)
        = some { ftype := FType.chr, rdev := NV_MAKE_DEVICE 234 0,
                 perm := 0o666, uid := 0, gid := 0, ino := 101, target := "" }
    ∧ NV_MAKE_DEVICE 234 0 ≠ NV_MAKE_DEVICE NV_MAJOR_DEVICE_NUMBER 0 := by
  decide

/-! ## Structural lemmas about the symlink step and the reconciler -/

theorem symlink_char_dev_tr_shape (w : World) (s : Sys) (major minor : Nat)
    (dev_path : String) :
    (symlink_char_dev w s major minor dev_path).tr = []
    ∨ (symlink_char_dev w s major minor dev_path).tr
        = [FsOp.remove (charDevLinkPath major minor),
           FsOp.symlink ("../" ++ strDrop dev_path 5)
             (charDevLinkPath major minor)] := by
  simp only [symlink_char_dev]
  repeat' split
  all_goals first | exact Or.inl rfl | exact Or.inr rfl

theorem symlink_char_dev_ret_cases (w : World) (s : Sys) (major minor : Nat)
    (dev_path : String) :
    (symlink_char_dev w s major minor dev_path).ret = 0
    ∨ (symlink_char_dev w s major minor dev_path).ret = 1 := by
  simp only [symlink_char_dev]
  repeat' split
  all_goals first | exact Or.inl rfl | exact Or.inr rfl

/-- A path that does not start with "/dev/" makes the symlink step a
no-op failure. -/
theorem symlink_char_dev_not_dev (w : World) (s : Sys) (major minor : Nat)
    (dev_path : String) (h : strTake dev_path 5 ≠ "/dev/") :
    symlink_char_dev w s major minor dev_path = ⟨0, s, []⟩ := by
  simp only [symlink_char_dev]
  repeat' split
  all_goals rfl

theorem mknod_chmod_chown_ret_cases (w : World) (s1 : Sys) (tr1 : List FsOp)
    (do_mknod : Bool) (major minor : Nat) (path : String)
    (p : DeviceFileParams) :
    (mknod_chmod_chown w s1 tr1 do_mknod major minor path p).ret = 0
    ∨ (mknod_chmod_chown w s1 tr1 do_mknod major minor path p).ret = 1 := by
  simp only [mknod_chmod_chown]
  repeat' split
  all_goals first
    | exact Or.inl rfl
    | exact symlink_char_dev_ret_cases w _ major minor path

theorem mknod_helper_create_ret_cases (w : World) (s : Sys) (tr0 : List FsOp)
    (do_mknod : Bool) (major minor : Nat) (path : String)
    (p : DeviceFileParams) :
    (mknod_helper_create w s tr0 do_mknod major minor path p).ret = 0
    ∨ (mknod_helper_create w s tr0 do_mknod major minor path p).ret = 1 := by
  simp only [mknod_helper_create]
  repeat' split
  all_goals first
    | exact Or.inl rfl
    | exact mknod_chmod_chown_ret_cases w _ _ do_mknod major minor path p

theorem mknod_helper_ret_cases (w : World) (s : Sys) (major minor : Nat)
    (path : String) (src : Option (List PolicyLine)) :
    (mknod_helper w s major minor path src).ret = 0
    ∨ (mknod_helper w s major minor path src).ret = 1 := by
  simp only [mknod_helper]
  repeat' split
  all_goals first
    | exact Or.inl rfl
    | exact symlink_char_dev_ret_cases w s major minor path
    | exact mknod_helper_create_ret_cases w _ _ _ major minor path _

/-- With modification disallowed (any policy value other than 1) the
reconciler is exactly the symlink step. -/
theorem mknod_helper_modify_ne_one (w : World) (s : Sys) (major minor : Nat)
    (path : String) (src : Option (List PolicyLine))
    (h : (init_device_file_parameters src).modify ≠ 1) :
    mknod_helper w s major minor path src
      = symlink_char_dev w s major minor path := by
  by_cases hp : path = ""
  · subst hp
    rw [symlink_char_dev_not_dev w s major minor "" (by decide)]
    simp [mknod_helper]
  · simp [mknod_helper, hp, h]

/-! ## Theorems: modify-allowed=false short circuit (claim C4) -/

/-- C4: when the policy read yields modify-allowed = 0, `mknod_helper`
equals the compatibility-symlink step — its result is the symlink step's
result — and every mutating call the symlink step issues targets only the
"/dev/char/<major>:<minor>" link path (a remove of it or a symlink
creation at it): no mknod, chmod or chown occurs at all and the device
node itself is never removed. -/
theorem modify_disallowed_short_circuit (w : World) (s : Sys)
    (major minor : Nat) (path : String) (src : Option (List PolicyLine))
    (h : (init_device_file_parameters src).modify = 0) :
    mknod_helper w s major minor path src
      = symlink_char_dev w s major minor path
    ∧ ∀ op ∈ (mknod_helper w s major minor path src).tr,
        op = FsOp.remove (charDevLinkPath major minor)
        ∨ ∃ t, op = FsOp.symlink t (charDevLinkPath major minor) := by
  have heq := mknod_helper_modify_ne_one w s major minor path src (by omega)
  refine ⟨heq, ?_⟩
  rw [heq]
  rcases symlink_char_dev_tr_shape w s major minor path with h1 | h1 <;> rw [h1]
  · intro op hop; simp at hop
  · intro op hop
    rcases List.mem_pair.mp hop with h2 | h2
    · exact Or.inl h2
    · exact Or.inr ⟨_, h2⟩

theorem modify_disallowed_short_circuit_witness :
    (init_device_file_parameters (some [PolicyLine.ok "ModifyDeviceFiles" 0])).modify = 0
    ∧ mknod_helper allOkWorld ⟨[], 3⟩ 195 0 "/dev/nvidia0"
        (some [PolicyLine.ok "ModifyDeviceFiles" 0])
      = symlink_char_dev allOkWorld ⟨[], 3⟩ 195 0 "/dev/nvidia0" :=
  ⟨by decide,
   (modify_disallowed_short_circuit allOkWorld ⟨[], 3⟩ 195 0 "/dev/nvidia0"
      (some [PolicyLine.ok "ModifyDeviceFiles" 0]) (by decide)).1⟩

/-! ## Theorems: modprobe fail-fast gate (claim C5) -/

theorem modprobe_load_attempt_not_noDevices (env : MpEnv) :
    (modprobe_load_attempt env).2 ≠ MpExit.noDevices := by
  simp only [modprobe_load_attempt]
  repeat' split
  all_goals simp

/-- C5: for a module that is not already loaded, `modprobe_helper` exits
at the PCI gate (returning 0 without reaching the loader-execution tail)
exactly when the enumeration reported no error and zero matches and the
Tegra allowance does not apply; when the enumeration itself reports an
error — in particular when the bus-device directory is missing, whose
`errno` it returns — the helper proceeds to the load attempt as if a
device might exist. -/
theorem modprobe_fail_fast_gate (env : MpEnv)
    (table : Option (List (List Char))) (name : List Char)
    (allow_on_tegra : Bool) (hne : name ≠ [])
    (hnl : is_kernel_module_loaded table name = false) :
    ((modprobe_helper env table name allow_on_tegra).2 = MpExit.noDevices
      ↔ (pci_enum_match_id env.pci nvidia_id_match).1 = 0
        ∧ (pci_enum_match_id env.pci nvidia_id_match).2 = 0
        ∧ ¬(allow_on_tegra = true ∧ is_tegra env = true))
    ∧ ((modprobe_helper env table name allow_on_tegra).2 = MpExit.noDevices →
        (modprobe_helper env table name allow_on_tegra).1 = 0)
    ∧ ((pci_enum_match_id env.pci nvidia_id_match).1 ≠ 0 →
        modprobe_helper env table name allow_on_tegra
          = modprobe_load_attempt env)
    ∧ (env.pci.dirExists = false →
        (pci_enum_match_id env.pci nvidia_id_match).1 = env.pci.dirErrno) := by
  have hunfold : modprobe_helper env table name allow_on_tegra
      = (if (pci_enum_match_id env.pci nvidia_id_match).1 = 0
            ∧ (pci_enum_match_id env.pci nvidia_id_match).2 = 0 then
           if !allow_on_tegra || !(is_tegra env) then (0, MpExit.noDevices)
           else modprobe_load_attempt env
         else modprobe_load_attempt env) := by
    simp [modprobe_helper, hne, hnl]
  refine ⟨?_, ?_, ?_, ?_⟩
  · rw [hunfold]
    by_cases h1 : (pci_enum_match_id env.pci nvidia_id_match).1 = 0
        ∧ (pci_enum_match_id env.pci nvidia_id_match).2 = 0
    · rw [if_pos h1]
      by_cases h2 : (!allow_on_tegra || !(is_tegra env)) = true
      · rw [if_pos h2]
        have hr : ¬(allow_on_tegra = true ∧ is_tegra env = true) := by
          intro hcon
          rw [hcon.1, hcon.2] at h2
          simp at h2
        simp [h1.1, h1.2, hr]
      · rw [if_neg h2]
        simp only [Bool.or_eq_true, Bool.not_eq_true'] at h2
        push_neg at h2
        constructor
        · intro hcon
          exact absurd hcon (modprobe_load_attempt_not_noDevices env)
        · intro hcon
          exact absurd ⟨by simpa using h2.1, by simpa using h2.2⟩ hcon.2.2
    · rw [if_neg h1]
      constructor
      · intro hcon
        exact absurd hcon (modprobe_load_attempt_not_noDevices env)
      · intro hcon
        exact absurd ⟨hcon.1, hcon.2.1⟩ h1
  · rw [hunfold]
    by_cases h1 : (pci_enum_match_id env.pci nvidia_id_match).1 = 0
        ∧ (pci_enum_match_id env.pci nvidia_id_match).2 = 0
    · rw [if_pos h1]
      by_cases h2 : (!allow_on_tegra || !(is_tegra env)) = true
      · rw [if_pos h2]; intro _; rfl
      · rw [if_neg h2]
        intro hcon
        exact absurd hcon (modprobe_load_attempt_not_noDevices env)
    · rw [if_neg h1]
      intro hcon
      exact absurd hcon (modprobe_load_attempt_not_noDevices env)
  · intro herr
    rw [hunfold, if_neg (fun hc => herr hc.1)]
  · intro hdir
    simp [pci_enum_match_id, hdir]

theorem modprobe_fail_fast_gate_witness :
    ((modprobe_helper
        { pci := { dirExists := true, dirErrno := 0, devs := [] },
          socFamily := none, euid := 0, modprobePathOk := true,
          forkFails := false, loadedAfterExec := true }
        (some []) ("nvidia".toList) false).2 = MpExit.noDevices
      ↔ True)
    ∧ modprobe_helper
        { pci := { dirExists := false, dirErrno := 2, devs := [] },
          socFamily := none, euid := 0, modprobePathOk := true,
          forkFails := false, loadedAfterExec := true }
        (some []) ("nvidia".toList) false
      = modprobe_load_attempt
        { pci := { dirExists := false, dirErrno := 2, devs := [] },
          socFamily := none, euid := 0, modprobePathOk := true,
          forkFails := false, loadedAfterExec := true } := by
  constructor
  · rw [iff_true]
    exact ((modprobe_fail_fast_gate
      { pci := { dirExists := true, dirErrno := 0, devs := [] },
        socFamily := none, euid := 0, modprobePathOk := true,
        forkFails := false, loadedAfterExec := true }
      (some []) ("nvidia".toList) false (by decide) (by decide)).1).mpr
      ⟨by decide, by decide, by decide⟩
  · exact (modprobe_fail_fast_gate
      { pci := { dirExists := false, dirErrno := 2, devs := [] },
        socFamily := none, euid := 0, modprobePathOk := true,
        forkFails := false, loadedAfterExec := true }
      (some []) ("nvidia".toList) false (by decide) (by decide)).2.2.1
      (by decide)

/-! ## Theorems: unified-memory node pair (claim C10) -/

/-- C10: `nvidia_uvm_mknod` reconciles two nodes — /dev/nvidia-uvm at the
base minor and /dev/nvidia-uvm-tools at base minor + 1 — both under the
registry-discovered "nvidia-uvm" major and with no policy source (the
`none` source yields exactly the defaults); when the major is not found
it returns failure with the filesystem untouched and an empty trace; the
result is success exactly when both reconciliations succeed (`&&`
short-circuits, so the second runs only after the first succeeds). -/
theorem uvm_mknod_reconciles_two_nodes (w : World) (s : Sys)
    (devicesFile : Option (List (List Char))) (base_minor : Nat) :
    (init_device_file_parameters none = defaultDeviceFileParams)
    ∧ (nvidia_get_chardev_major devicesFile NV_UVM_MODULE_NAME.toList < 0 →
        nvidia_uvm_mknod w s devicesFile base_minor = ⟨0, s, []⟩)
    ∧ (∀ mj : Int,
        nvidia_get_chardev_major devicesFile NV_UVM_MODULE_NAME.toList = mj →
        0 ≤ mj →
        ((mknod_helper w s mj.toNat base_minor NV_UVM_DEVICE_NAME none).ret = 0 →
          nvidia_uvm_mknod w s devicesFile base_minor
            = ⟨0, (mknod_helper w s mj.toNat base_minor NV_UVM_DEVICE_NAME none).sys,
                (mknod_helper w s mj.toNat base_minor NV_UVM_DEVICE_NAME none).tr⟩)
        ∧ ((mknod_helper w s mj.toNat base_minor NV_UVM_DEVICE_NAME none).ret = 1 →
            nvidia_uvm_mknod w s devicesFile base_minor
              = ⟨(mknod_helper w
                    (mknod_helper w s mj.toNat base_minor NV_UVM_DEVICE_NAME none).sys
                    mj.toNat (base_minor + 1) NV_UVM_TOOLS_DEVICE_NAME none).ret,
                 (mknod_helper w
                    (mknod_helper w s mj.toNat base_minor NV_UVM_DEVICE_NAME none).sys
                    mj.toNat (base_minor + 1) NV_UVM_TOOLS_DEVICE_NAME none).sys,
                 (mknod_helper w s mj.toNat base_minor NV_UVM_DEVICE_NAME none).tr
                   ++ (mknod_helper w
                        (mknod_helper w s mj.toNat base_minor NV_UVM_DEVICE_NAME none).sys
                        mj.toNat (base_minor + 1) NV_UVM_TOOLS_DEVICE_NAME none).tr⟩)
        ∧ ((nvidia_uvm_mknod w s devicesFile base_minor).ret = 1 →
            (mknod_helper w s mj.toNat base_minor NV_UVM_DEVICE_NAME none).ret = 1
            ∧ (mknod_helper w
                 (mknod_helper w s mj.toNat base_minor NV_UVM_DEVICE_NAME none).sys
                 mj.toNat (base_minor + 1) NV_UVM_TOOLS_DEVICE_NAME none).ret = 1)) := by
  refine ⟨rfl, ?_, ?_⟩
  · intro hneg
    simp only [nvidia_uvm_mknod]
    rw [if_pos hneg]
  · intro mj hmj hpos
    have hlt : ¬ (mj < 0) := by omega
    constructor
    · intro h0
      simp only [nvidia_uvm_mknod]
      rw [hmj, if_neg hlt, if_pos h0]
    constructor
    · intro h1
      have hne : (mknod_helper w s mj.toNat base_minor NV_UVM_DEVICE_NAME none).ret ≠ 0 := by
        omega
      simp only [nvidia_uvm_mknod]
      rw [hmj, if_neg hlt, if_neg hne]
      rcases mknod_helper_ret_cases w
          (mknod_helper w s mj.toNat base_minor NV_UVM_DEVICE_NAME none).sys
          mj.toNat (base_minor + 1) NV_UVM_TOOLS_DEVICE_NAME none with h2 | h2 <;>
        rw [h2] <;> norm_num
    · intro hres
      by_cases h0 : (mknod_helper w s mj.toNat base_minor NV_UVM_DEVICE_NAME none).ret = 0
      · exfalso
        have hu : nvidia_uvm_mknod w s devicesFile base_minor
            = ⟨0, (mknod_helper w s mj.toNat base_minor NV_UVM_DEVICE_NAME none).sys,
                (mknod_helper w s mj.toNat base_minor NV_UVM_DEVICE_NAME none).tr⟩ := by
          simp only [nvidia_uvm_mknod]
          rw [hmj, if_neg hlt, if_pos h0]
        rw [hu] at hres
        simp at hres
      · have h1 : (mknod_helper w s mj.toNat base_minor NV_UVM_DEVICE_NAME none).ret = 1 :=
          (mknod_helper_ret_cases w s mj.toNat base_minor
            NV_UVM_DEVICE_NAME none).resolve_left h0
        refine ⟨h1, ?_⟩
        have hu : nvidia_uvm_mknod w s devicesFile base_minor
            = ⟨if (mknod_helper w
                    (mknod_helper w s mj.toNat base_minor NV_UVM_DEVICE_NAME none).sys
                    mj.toNat (base_minor + 1) NV_UVM_TOOLS_DEVICE_NAME none).ret ≠ 0
               then 1 else 0,
               (mknod_helper w
                  (mknod_helper w s mj.toNat base_minor NV_UVM_DEVICE_NAME none).sys
                  mj.toNat (base_minor + 1) NV_UVM_TOOLS_DEVICE_NAME none).sys,
               (mknod_helper w s mj.toNat base_minor NV_UVM_DEVICE_NAME none).tr
                 ++ (mknod_helper w
                      (mknod_helper w s mj.toNat base_minor NV_UVM_DEVICE_NAME none).sys
                      mj.toNat (base_minor + 1) NV_UVM_TOOLS_DEVICE_NAME none).tr⟩ := by
          simp only [nvidia_uvm_mknod]
          rw [hmj, if_neg hlt, if_neg h0]
        rw [hu] at hres
        by_cases h2 : (mknod_helper w
            (mknod_helper w s mj.toNat base_minor NV_UVM_DEVICE_NAME none).sys
            mj.toNat (base_minor + 1) NV_UVM_TOOLS_DEVICE_NAME none).ret = 0
        · simp only [h2, ne_eq, not_true_eq_false] at hres
          simp at hres
        · exact (mknod_helper_ret_cases w
            (mknod_helper w s mj.toNat base_minor NV_UVM_DEVICE_NAME none).sys
            mj.toNat (base_minor + 1) NV_UVM_TOOLS_DEVICE_NAME none).resolve_left h2

theorem uvm_mknod_reconciles_two_nodes_witness :
    nvidia_uvm_mknod allOkWorld ⟨[], 7⟩ (some [NV_PROC_DEVICES_HEADER]) 0
      = ⟨0, ⟨[], 7⟩, []⟩
    ∧ (nvidia_uvm_mknod allOkWorld ⟨[], 7⟩ (some uvmRegistry508) 0).ret = 1
    ∧ (mknod_helper allOkWorld ⟨[], 7⟩ 508 0 NV_UVM_DEVICE_NAME none).ret = 1
    ∧ (mknod_helper allOkWorld
         (mknod_helper allOkWorld ⟨[], 7⟩ 508 0 NV_UVM_DEVICE_NAME none).sys
         508 1 NV_UVM_TOOLS_DEVICE_NAME none).ret = 1 := by
  refine ⟨(uvm_mknod_reconciles_two_nodes allOkWorld ⟨[], 7⟩
      (some [NV_PROC_DEVICES_HEADER]) 0).2.1 (by decide), ?_⟩
  have h := (uvm_mknod_reconciles_two_nodes allOkWorld ⟨[], 7⟩
      (some uvmRegistry508) 0).2.2 508 (by decide) (by decide)
  have hres : (nvidia_uvm_mknod allOkWorld ⟨[], 7⟩ (some uvmRegistry508) 0).ret = 1 := by
    decide
  have hboth := h.2.2 hres
  exact ⟨hres, hboth.1, hboth.2⟩

/-! ## Lemmas about the filesystem map and the primitive operations -/

theorem find?_filter_ne (p q : String) (h : q ≠ p) :
    ∀ fs : FS, (fs.filter (fun e => e.1 != p)).find? (fun e => e.1 == q)
      = fs.find? (fun e => e.1 == q)
  | [] => rfl
  | e :: rest => by
    by_cases he : e.1 = p
    · have hpq : (p == q) = false := beq_eq_false_iff_ne.mpr (Ne.symm h)
      simp [List.filter_cons, List.find?_cons, he, hpq,
        find?_filter_ne p q h rest]
    · cases h2 : (e.1 == q) with
      | true =>
        simp [List.filter_cons, List.find?_cons, he, h2]
      | false =>
        simp [List.filter_cons, List.find?_cons, he, h2,
          find?_filter_ne p q h rest]

theorem fsGet_fsSet_self (fs : FS) (p : String) (st : FileStat) :
    fsGet (fsSet fs p st) p = some st := by
  simp [fsGet, fsSet, List.find?_cons]

theorem fsGet_fsSet_ne (fs : FS) (p : String) (st : FileStat) (q : String)
    (h : q ≠ p) : fsGet (fsSet fs p st) q = fsGet fs q := by
  unfold fsGet fsSet
  rw [List.find?_cons]
  have h2 : ((p, st).1 == q) = false := by
    simp only [beq_eq_false_iff_ne, ne_eq]
    intro hc; exact h (hc ▸ rfl)
  rw [h2, find?_filter_ne p q h fs]

theorem fsGet_fsDel_self (fs : FS) (p : String) :
    fsGet (fsDel fs p) p = none := by
  unfold fsGet fsDel
  have hall : ∀ l : FS, (l.filter (fun e => e.1 != p)).find? (fun e => e.1 == p)
      = none := by
    intro l
    induction l with
    | nil => rfl
    | cons e rest ih =>
      by_cases he : e.1 = p
      · simp only [List.filter_cons, he]
        simp only [bne_self_eq_false, if_false]
        exact ih
      · have h1 : (e.1 != p) = true := by simp [he]
        have h2 : (e.1 == p) = false := by simp [he]
        simp only [List.filter_cons, h1, if_true, List.find?_cons, h2]
        exact ih
  rw [hall fs]

theorem fsGet_fsDel_ne (fs : FS) (p q : String) (h : q ≠ p) :
    fsGet (fsDel fs p) q = fsGet fs q := by
  unfold fsGet fsDel
  rw [find?_filter_ne p q h fs]

theorem opRemove_preserves (w : World) (s : Sys) (p q : String) (h : q ≠ p) :
    fsGet (opRemove w s p).2.fs q = fsGet s.fs q := by
  unfold opRemove
  split
  · rfl
  · split
    · exact fsGet_fsDel_ne s.fs p q h
    · rfl

theorem opMknod_preserves (w : World) (s : Sys) (p : String) (mode dev : Nat)
    (q : String) (h : q ≠ p) :
    fsGet (opMknod w s p mode dev).2.fs q = fsGet s.fs q := by
  unfold opMknod
  split
  · rfl
  · split
    · rfl
    · exact fsGet_fsSet_ne s.fs p _ q h

theorem opChmod_preserves (w : World) (s : Sys) (p : String) (mode : Nat)
    (q : String) (h : q ≠ p) :
    fsGet (opChmod w s p mode).2.fs q = fsGet s.fs q := by
  unfold opChmod
  split
  · rfl
  · split
    · exact fsGet_fsSet_ne s.fs p _ q h
    · rfl

theorem opChown_preserves (w : World) (s : Sys) (p : String) (u g : Nat)
    (q : String) (h : q ≠ p) :
    fsGet (opChown w s p u g).2.fs q = fsGet s.fs q := by
  unfold opChown
  split
  · rfl
  · split
    · exact fsGet_fsSet_ne s.fs p _ q h
    · rfl

theorem opSymlink_preserves (w : World) (s : Sys) (target p : String)
    (q : String) (h : q ≠ p) :
    fsGet (opSymlink w s target p).2.fs q = fsGet s.fs q := by
  unfold opSymlink
  split
  · rfl
  · split
    · rfl
    · exact fsGet_fsSet_ne s.fs p _ q h

/-- The symlink step touches only the "/dev/char/<major>:<minor>" path. -/
theorem symlink_char_dev_preserves (w : World) (s : Sys) (major minor : Nat)
    (dev_path q : String) (h : q ≠ charDevLinkPath major minor) :
    fsGet (symlink_char_dev w s major minor dev_path).sys.fs q
      = fsGet s.fs q := by
  simp only [symlink_char_dev]
  repeat' split
  all_goals first
    | rfl
    | rw [opSymlink_preserves w _ _ _ q h, opRemove_preserves w s _ q h]

/-! ## Success and failure characterizations of the primitive operations -/

theorem opChmod_fail (w : World) (s : Sys) (p : String) (mode : Nat)
    (hf : w.chmodFails p = true) : opChmod w s p mode = (-1, s) := by
  simp [opChmod, hf]

theorem opChmod_success (w : World) (s : Sys) (p : String) (mode : Nat)
    (st : FileStat) (hf : w.chmodFails p = false)
    (hget : fsGet s.fs p = some st) :
    opChmod w s p mode
      = (0, { s with fs := fsSet s.fs p { st with perm := mode &&& permBits } }) := by
  simp [opChmod, hf, hget]

theorem opChown_fail (w : World) (s : Sys) (p : String) (u g : Nat)
    (hf : w.chownFails p = true) : opChown w s p u g = (-1, s) := by
  simp [opChown, hf]

theorem opChown_success (w : World) (s : Sys) (p : String) (u g : Nat)
    (st : FileStat) (hf : w.chownFails p = false)
    (hget : fsGet s.fs p = some st) :
    opChown w s p u g
      = (0, { s with fs := fsSet s.fs p { st with uid := u, gid := g } }) := by
  simp [opChown, hf, hget]

theorem opRemove_success (w : World) (s : Sys) (p : String) (st : FileStat)
    (hf : w.removeFails p = false) (hget : fsGet s.fs p = some st) :
    opRemove w s p = (0, { s with fs := fsDel s.fs p }) := by
  simp [opRemove, hf, hget]

theorem opMknod_success (w : World) (s : Sys) (p : String) (mode dev : Nat)
    (hf : w.mknodFails p = false) (hget : fsGet s.fs p = none) :
    opMknod w s p mode dev
      = (0, { fs := fsSet s.fs p
                { ftype := FType.chr, rdev := dev,
                  perm := (mode &&& permBits) &&& (permBits ^^^ (w.umask &&& permBits)),
                  uid := 0, gid := 0, ino := s.nextIno, target := "" },
              nextIno := s.nextIno + 1 }) := by
  simp [opMknod, hf, hget]

/-! ## Relating the observed-state word to the filesystem -/

/-- When the entry at `path` is not a symbolic link, `stat` is just the
map lookup. -/
theorem statFn_eq_fsGet (fs : FS) (path : String)
    (hlnk : ∀ st, fsGet fs path = some st → st.ftype ≠ FType.lnk) :
    statFn fs path = fsGet fs path := by
  unfold statFn
  cases hget : fsGet fs path with
  | none => rfl
  | some st =>
    have := hlnk st hget
    simp [this]

/-- Facts about the node imply the fully-correct observed state 7. -/
theorem file_state_of_facts (fs : FS) (path : String) (major minor : Nat)
    (uid gid mode : Nat) (st : FileStat)
    (hget : fsGet fs path = some st) (hty : st.ftype = FType.chr)
    (hrd : st.rdev = NV_MAKE_DEVICE major minor)
    (hpm : st.perm &&& NV_DEVICE_FILE_MODE_MASK = mode)
    (hu : st.uid = uid) (hg : st.gid = gid) :
    get_file_state_helper fs path major minor uid gid mode = 7 := by
  unfold get_file_state_helper statFn
  rw [hget]
  have hnl : ¬ st.ftype = FType.lnk := by rw [hty]; intro hc; cases hc
  simp [hnl, hty, hrd, hpm, hu, hg]
  rfl

/-- The three observed-state flags all set imply the node facts. -/
theorem facts_of_file_state_all (fs : FS) (path : String) (major minor : Nat)
    (uid gid mode : Nat)
    (hlnk : ∀ st, fsGet fs path = some st → st.ftype ≠ FType.lnk)
    (hex : nvidia_test_file_state
      (get_file_state_helper fs path major minor uid gid mode)
      NvDeviceFileStateFileExists = true)
    (hch : nvidia_test_file_state
      (get_file_state_helper fs path major minor uid gid mode)
      NvDeviceFileStateChrDevOk = true)
    (hpm : nvidia_test_file_state
      (get_file_state_helper fs path major minor uid gid mode)
      NvDeviceFileStatePermissionsOk = true) :
    ∃ st, fsGet fs path = some st ∧ st.ftype = FType.chr
      ∧ st.rdev = NV_MAKE_DEVICE major minor
      ∧ st.perm &&& NV_DEVICE_FILE_MODE_MASK = mode
      ∧ st.uid = uid ∧ st.gid = gid := by
  simp only [get_file_state_helper, statFn_eq_fsGet fs path hlnk] at hex hch hpm
  cases hget : fsGet fs path with
  | none =>
    simp only [hget] at hex
    exact absurd hex (by decide)
  | some st =>
    simp only [hget] at hex hch hpm
    refine ⟨st, rfl, ?_⟩
    by_cases h1 : st.ftype = FType.chr ∧ st.rdev = NV_MAKE_DEVICE major minor
    · by_cases h2 : (st.perm &&& NV_DEVICE_FILE_MODE_MASK) = mode ∧ st.uid = uid
          ∧ st.gid = gid
      · exact ⟨h1.1, h1.2, h2.1, h2.2.1, h2.2.2⟩
      · simp only [if_pos h1, if_neg h2] at hpm
        exact absurd hpm (by decide)
    · by_cases h2 : (st.perm &&& NV_DEVICE_FILE_MODE_MASK) = mode ∧ st.uid = uid
          ∧ st.gid = gid
      · simp only [if_pos h2, if_neg h1] at hch
        exact absurd hch (by decide)
      · simp only [if_neg h2, if_neg h1] at hch
        exact absurd hch (by decide)

/-- File-exists flag unset means there is no entry at all (when the entry
cannot be a symbolic link). -/
theorem fsGet_none_of_not_exists (fs : FS) (path : String)
    (major minor uid gid mode : Nat)
    (hlnk : ∀ st, fsGet fs path = some st → st.ftype ≠ FType.lnk)
    (hex : nvidia_test_file_state
      (get_file_state_helper fs path major minor uid gid mode)
      NvDeviceFileStateFileExists = false) :
    fsGet fs path = none := by
  simp only [get_file_state_helper, statFn_eq_fsGet fs path hlnk] at hex
  cases hget : fsGet fs path with
  | none => rfl
  | some st =>
    simp only [hget] at hex
    by_cases h1 : st.ftype = FType.chr ∧ st.rdev = NV_MAKE_DEVICE major minor
    · by_cases h2 : (st.perm &&& NV_DEVICE_FILE_MODE_MASK) = mode ∧ st.uid = uid
          ∧ st.gid = gid
      · simp only [if_pos h1, if_pos h2] at hex
        exact absurd hex (by decide)
      · simp only [if_pos h1, if_neg h2] at hex
        exact absurd hex (by decide)
    · by_cases h2 : (st.perm &&& NV_DEVICE_FILE_MODE_MASK) = mode ∧ st.uid = uid
          ∧ st.gid = gid
      · simp only [if_neg h1, if_pos h2] at hex
        exact absurd hex (by decide)
      · simp only [if_neg h1, if_neg h2] at hex
        exact absurd hex (by decide)

/-- Exists and correct-character-device flags set imply the entry is the
right character device. -/
theorem facts_of_file_state_chr (fs : FS) (path : String)
    (major minor uid gid mode : Nat)
    (hlnk : ∀ st, fsGet fs path = some st → st.ftype ≠ FType.lnk)
    (hex : nvidia_test_file_state
      (get_file_state_helper fs path major minor uid gid mode)
      NvDeviceFileStateFileExists = true)
    (hch : nvidia_test_file_state
      (get_file_state_helper fs path major minor uid gid mode)
      NvDeviceFileStateChrDevOk = true) :
    ∃ st, fsGet fs path = some st ∧ st.ftype = FType.chr
      ∧ st.rdev = NV_MAKE_DEVICE major minor := by
  simp only [get_file_state_helper, statFn_eq_fsGet fs path hlnk] at hex hch
  cases hget : fsGet fs path with
  | none =>
    simp only [hget] at hex
    exact absurd hex (by decide)
  | some st =>
    simp only [hget] at hch
    refine ⟨st, rfl, ?_⟩
    by_cases h1 : st.ftype = FType.chr ∧ st.rdev = NV_MAKE_DEVICE major minor
    · exact ⟨h1.1, h1.2⟩
    · by_cases h2 : (st.perm &&& NV_DEVICE_FILE_MODE_MASK) = mode ∧ st.uid = uid
          ∧ st.gid = gid
      · simp only [if_neg h1, if_pos h2] at hch
        exact absurd hch (by decide)
      · simp only [if_neg h1, if_neg h2] at hch
        exact absurd hch (by decide)

/-! ## Success and rollback behavior of the reconciler tail -/

/-- A successful permission tail leaves the node at `path` with the
policy's mode bits and ownership, and otherwise unchanged. -/
theorem mknod_chmod_chown_success (w : World) (s1 : Sys) (tr1 : List FsOp)
    (dm : Bool) (major minor : Nat) (path : String) (p : DeviceFileParams)
    (stIn : FileStat)
    (hret : (mknod_chmod_chown w s1 tr1 dm major minor path p).ret = 1)
    (hin : fsGet s1.fs path = some stIn)
    (hsp : path ≠ charDevLinkPath major minor) :
    fsGet (mknod_chmod_chown w s1 tr1 dm major minor path p).sys.fs path
      = some { stIn with
               perm := (p.mode &&& permBits),
               uid := p.uid, gid := p.gid } := by
  by_cases hc : w.chmodFails path = true
  · exfalso
    rw [mknod_chmod_chown, opChmod_fail w s1 path p.mode hc] at hret
    by_cases hdm : dm = true <;> simp [hdm] at hret
  · have hcf : w.chmodFails path = false := by simpa using hc
    have hchm := opChmod_success w s1 path p.mode stIn hcf hin
    by_cases ho : w.chownFails path = true
    · exfalso
      rw [mknod_chmod_chown, hchm,
        opChown_fail w _ path p.uid p.gid ho] at hret
      by_cases hdm : dm = true <;> simp [hdm] at hret
    · have hof : w.chownFails path = false := by simpa using ho
      have hin2 := fsGet_fsSet_self s1.fs path
        { stIn with perm := (p.mode &&& permBits) }
      have hcho := opChown_success w
        { s1 with fs := fsSet s1.fs path { stIn with perm := (p.mode &&& permBits) } }
        path p.uid p.gid _ hof hin2
      rw [mknod_chmod_chown, hchm, hcho]
      simp only [ne_eq, not_true_eq_false, if_false, not_false_eq_true,
        if_true, ite_self]
      rw [symlink_char_dev_preserves w _ major minor path path hsp]
      exact fsGet_fsSet_self _ _ _

/-- A successful creating call leaves a freshly made character device with
the policy's attributes at `path`. -/
theorem mknod_helper_create_success (w : World) (s : Sys) (tr0 : List FsOp)
    (major minor : Nat) (path : String) (p : DeviceFileParams)
    (hret : (mknod_helper_create w s tr0 true major minor path p).ret = 1)
    (hsp : path ≠ charDevLinkPath major minor) :
    fsGet (mknod_helper_create w s tr0 true major minor path p).sys.fs path
      = some { ftype := FType.chr, rdev := NV_MAKE_DEVICE major minor,
               perm := (p.mode &&& permBits), uid := p.uid, gid := p.gid,
               ino := s.nextIno, target := "" } := by
  by_cases hm : w.mknodFails path = true
  · exfalso
    simp [mknod_helper_create, opMknod, hm] at hret
  · cases hget : fsGet s.fs path with
    | some st0 =>
      exfalso
      simp [mknod_helper_create, opMknod, hm, hget] at hret
    | none =>
      have hmk := opMknod_success w s path p.mode (NV_MAKE_DEVICE major minor)
        (by simpa using hm) hget
      have hres : mknod_helper_create w s tr0 true major minor path p
          = mknod_chmod_chown w
              { fs := fsSet s.fs path
                  { ftype := FType.chr, rdev := NV_MAKE_DEVICE major minor,
                    perm := (p.mode &&& permBits) &&&
                      (permBits ^^^ (w.umask &&& permBits)),
                    uid := 0, gid := 0, ino := s.nextIno, target := "" },
                nextIno := s.nextIno + 1 }
              (tr0 ++ [FsOp.mknod path p.mode (NV_MAKE_DEVICE major minor)])
              true major minor path p := by
        simp only [mknod_helper_create, if_pos rfl, hmk]
        simp
      rw [hres] at hret ⊢
      exact mknod_chmod_chown_success w _ _ true major minor path p _ hret
        (fsGet_fsSet_self _ _ _) hsp

/-- A failed permission tail after a fresh creation rolls the node back:
when the rollback `remove` succeeds, the node is gone and failure is
reported. -/
theorem mknod_chmod_chown_fail_fresh (w : World) (s1 : Sys) (tr1 : List FsOp)
    (major minor : Nat) (path : String) (p : DeviceFileParams)
    (st : FileStat) (hin : fsGet s1.fs path = some st)
    (hrm : w.removeFails path = false)
    (hfail : w.chmodFails path = true
      ∨ (w.chmodFails path = false ∧ w.chownFails path = true)) :
    (mknod_chmod_chown w s1 tr1 true major minor path p).ret = 0
    ∧ fsGet (mknod_chmod_chown w s1 tr1 true major minor path p).sys.fs path
        = none := by
  rcases hfail with hc | ⟨hcf, ho⟩
  · have hrr := opRemove_success w s1 path st hrm hin
    simp only [mknod_chmod_chown, opChmod_fail w s1 path p.mode hc, hrr]
    exact ⟨by simp, by simp [fsGet_fsDel_self]⟩
  · have hchm := opChmod_success w s1 path p.mode st hcf hin
    have hin2 := fsGet_fsSet_self s1.fs path
      { st with perm := (p.mode &&& permBits) }
    have hrr := opRemove_success w
      { s1 with fs := fsSet s1.fs path { st with perm := (p.mode &&& permBits) } }
      path _ hrm hin2
    simp only [mknod_chmod_chown, hchm, opChown_fail w _ path p.uid p.gid ho, hrr]
    exact ⟨by simp, by simp [fsGet_fsDel_self]⟩

/-- A failed permission tail on a pre-existing node reports failure and
does not delete the node: if `chmod` failed the node is fully unchanged,
and if `chmod` succeeded but `chown` failed the node keeps its identity
and ownership but carries the new mode bits. -/
theorem mknod_chmod_chown_fail_preexisting (w : World) (s1 : Sys)
    (tr1 : List FsOp) (major minor : Nat) (path : String)
    (p : DeviceFileParams) (st : FileStat)
    (hin : fsGet s1.fs path = some st) :
    (w.chmodFails path = true →
      (mknod_chmod_chown w s1 tr1 false major minor path p).ret = 0
      ∧ fsGet (mknod_chmod_chown w s1 tr1 false major minor path p).sys.fs path
          = some st)
    ∧ (w.chmodFails path = false → w.chownFails path = true →
        (mknod_chmod_chown w s1 tr1 false major minor path p).ret = 0
        ∧ fsGet (mknod_chmod_chown w s1 tr1 false major minor path p).sys.fs path
            = some { st with perm := (p.mode &&& permBits) }) := by
  constructor
  · intro hc
    rw [mknod_chmod_chown, opChmod_fail w s1 path p.mode hc]
    exact ⟨by simp, by simp [hin]⟩
  · intro hcf ho
    have hchm := opChmod_success w s1 path p.mode st hcf hin
    rw [mknod_chmod_chown, hchm, opChown_fail w _ path p.uid p.gid ho]
    exact ⟨by simp, by simp [fsGet_fsSet_self]⟩

theorem and_mask_idem (a m : Nat) : (a &&& m) &&& m = a &&& m := by
  rw [Nat.and_assoc, Nat.and_self]

theorem masked_perm (mode : Nat) :
    (mode &&& permBits) &&& NV_DEVICE_FILE_MODE_MASK
      = mode &&& NV_DEVICE_FILE_MODE_MASK := by
  rw [Nat.and_assoc,
    show permBits &&& NV_DEVICE_FILE_MODE_MASK = NV_DEVICE_FILE_MODE_MASK
      from by decide]

/-- Every successful reconciliation with modification allowed — for a
device path distinct from its /dev/char link path whose entry is not a
symbolic link — leaves a correct character device with the policy's
masked mode bits and ownership at `path`. -/
theorem mknod_helper_success_post (w : World) (s : Sys) (major minor : Nat)
    (path : String) (src : Option (List PolicyLine))
    (h1 : (mknod_helper w s major minor path src).ret = 1)
    (hmod : (init_device_file_parameters src).modify = 1)
    (hsp : path ≠ charDevLinkPath major minor)
    (hlnk : ∀ st, fsGet s.fs path = some st → st.ftype ≠ FType.lnk) :
    ∃ st, fsGet (mknod_helper w s major minor path src).sys.fs path = some st
      ∧ st.ftype = FType.chr ∧ st.rdev = NV_MAKE_DEVICE major minor
      ∧ st.perm &&& NV_DEVICE_FILE_MODE_MASK
          = (init_device_file_parameters src).mode &&& NV_DEVICE_FILE_MODE_MASK
      ∧ st.uid = (init_device_file_parameters src).uid
      ∧ st.gid = (init_device_file_parameters src).gid := by
  have hpath : ¬ (path = "") := by
    intro hp
    rw [mknod_helper, if_pos hp] at h1
    simp at h1
  have hmodn : ¬ ((init_device_file_parameters src).modify ≠ 1) := by
    simp [hmod]
  have hunfold : mknod_helper w s major minor path src
      = (if nvidia_test_file_state
            (get_file_state_helper s.fs path major minor
              (init_device_file_parameters src).uid
              (init_device_file_parameters src).gid
              (init_device_file_parameters src).mode)
            NvDeviceFileStateFileExists ∧
          nvidia_test_file_state
            (get_file_state_helper s.fs path major minor
              (init_device_file_parameters src).uid
              (init_device_file_parameters src).gid
              (init_device_file_parameters src).mode)
            NvDeviceFileStateChrDevOk ∧
          nvidia_test_file_state
            (get_file_state_helper s.fs path major minor
              (init_device_file_parameters src).uid
              (init_device_file_parameters src).gid
              (init_device_file_parameters src).mode)
            NvDeviceFileStatePermissionsOk then
          symlink_char_dev w s major minor path
        else if ¬ nvidia_test_file_state
            (get_file_state_helper s.fs path major minor
              (init_device_file_parameters src).uid
              (init_device_file_parameters src).gid
              (init_device_file_parameters src).mode)
            NvDeviceFileStateFileExists then
          mknod_helper_create w s [] true major minor path
            (init_device_file_parameters src)
        else if ¬ nvidia_test_file_state
            (get_file_state_helper s.fs path major minor
              (init_device_file_parameters src).uid
              (init_device_file_parameters src).gid
              (init_device_file_parameters src).mode)
            NvDeviceFileStateChrDevOk then
          (if (opRemove w s path).1 ≠ 0 then
            ⟨0, (opRemove w s path).2, [FsOp.remove path]⟩
          else
            mknod_helper_create w (opRemove w s path).2 [FsOp.remove path]
              true major minor path (init_device_file_parameters src))
        else
          mknod_helper_create w s [] false major minor path
            (init_device_file_parameters src)) := by
    simp only [mknod_helper, if_neg hpath, if_neg hmodn]
  rw [hunfold] at h1 ⊢
  by_cases hall : nvidia_test_file_state
      (get_file_state_helper s.fs path major minor
        (init_device_file_parameters src).uid
        (init_device_file_parameters src).gid
        (init_device_file_parameters src).mode)
      NvDeviceFileStateFileExists = true ∧
    nvidia_test_file_state
      (get_file_state_helper s.fs path major minor
        (init_device_file_parameters src).uid
        (init_device_file_parameters src).gid
        (init_device_file_parameters src).mode)
      NvDeviceFileStateChrDevOk = true ∧
    nvidia_test_file_state
      (get_file_state_helper s.fs path major minor
        (init_device_file_parameters src).uid
        (init_device_file_parameters src).gid
        (init_device_file_parameters src).mode)
      NvDeviceFileStatePermissionsOk = true
  · rw [if_pos hall] at h1 ⊢
    obtain ⟨st, hget, hchr, hrdev, hperm, huid, hgid⟩ :=
      facts_of_file_state_all s.fs path major minor _ _ _ hlnk
        hall.1 hall.2.1 hall.2.2
    refine ⟨st, ?_, hchr, hrdev, ?_, huid, hgid⟩
    · rw [symlink_char_dev_preserves w s major minor path path hsp, hget]
    · calc st.perm &&& NV_DEVICE_FILE_MODE_MASK
          = (st.perm &&& NV_DEVICE_FILE_MODE_MASK) &&& NV_DEVICE_FILE_MODE_MASK :=
            (and_mask_idem _ _).symm
        _ = (init_device_file_parameters src).mode &&& NV_DEVICE_FILE_MODE_MASK := by
            rw [hperm]
  · rw [if_neg hall] at h1 ⊢
    by_cases hex : nvidia_test_file_state
        (get_file_state_helper s.fs path major minor
          (init_device_file_parameters src).uid
          (init_device_file_parameters src).gid
          (init_device_file_parameters src).mode)
        NvDeviceFileStateFileExists = true
    · rw [if_neg (by simp [hex])] at h1 ⊢
      by_cases hch : nvidia_test_file_state
          (get_file_state_helper s.fs path major minor
            (init_device_file_parameters src).uid
            (init_device_file_parameters src).gid
            (init_device_file_parameters src).mode)
          NvDeviceFileStateChrDevOk = true
      · rw [if_neg (by simp [hch])] at h1 ⊢
        obtain ⟨st0, hget0, hchr0, hrdev0⟩ :=
          facts_of_file_state_chr s.fs path major minor _ _ _ hlnk hex hch
        have hcf : mknod_helper_create w s [] false major minor path
            (init_device_file_parameters src)
            = mknod_chmod_chown w s [] false major minor path
              (init_device_file_parameters src) := by
          simp [mknod_helper_create]
        rw [hcf] at h1 ⊢
        have hpost := mknod_chmod_chown_success w s [] false major minor path
          (init_device_file_parameters src) st0 h1 hget0 hsp
        exact ⟨_, hpost, hchr0, hrdev0, masked_perm _, rfl, rfl⟩
      · rw [if_pos (by simp [hch])] at h1 ⊢
        by_cases hrm : (opRemove w s path).1 ≠ 0
        · rw [if_pos hrm] at h1
          simp at h1
        · rw [if_neg hrm] at h1 ⊢
          have hpost := mknod_helper_create_success w (opRemove w s path).2
            [FsOp.remove path] major minor path
            (init_device_file_parameters src) h1 hsp
          exact ⟨_, hpost, rfl, rfl, masked_perm _, rfl, rfl⟩
    · rw [if_pos (by simp [hex])] at h1 ⊢
      have hpost := mknod_helper_create_success w s [] major minor path
        (init_device_file_parameters src) h1 hsp
      exact ⟨_, hpost, rfl, rfl, masked_perm _, rfl, rfl⟩

/-- A successful reconciliation cannot have had an empty path. -/
theorem mknod_helper_ret_one_path_ne (w : World) (s : Sys)
    (major minor : Nat) (path : String) (src : Option (List PolicyLine))
    (h1 : (mknod_helper w s major minor path src).ret = 1) :
    ¬ (path = "") := by
  intro hp
  rw [mknod_helper, if_pos hp] at h1
  simp at h1

/-- Control-flow normal form of `mknod_helper` once the path is nonempty
and modification is allowed. -/
theorem mknod_helper_unfold (w : World) (s : Sys) (major minor : Nat)
    (path : String) (src : Option (List PolicyLine))
    (hpath : ¬ (path = ""))
    (hmod : (init_device_file_parameters src).modify = 1) :
    mknod_helper w s major minor path src
      = (if nvidia_test_file_state
            (get_file_state_helper s.fs path major minor
              (init_device_file_parameters src).uid
              (init_device_file_parameters src).gid
              (init_device_file_parameters src).mode)
            NvDeviceFileStateFileExists ∧
          nvidia_test_file_state
            (get_file_state_helper s.fs path major minor
              (init_device_file_parameters src).uid
              (init_device_file_parameters src).gid
              (init_device_file_parameters src).mode)
            NvDeviceFileStateChrDevOk ∧
          nvidia_test_file_state
            (get_file_state_helper s.fs path major minor
              (init_device_file_parameters src).uid
              (init_device_file_parameters src).gid
              (init_device_file_parameters src).mode)
            NvDeviceFileStatePermissionsOk then
          symlink_char_dev w s major minor path
        else if ¬ nvidia_test_file_state
            (get_file_state_helper s.fs path major minor
              (init_device_file_parameters src).uid
              (init_device_file_parameters src).gid
              (init_device_file_parameters src).mode)
            NvDeviceFileStateFileExists then
          mknod_helper_create w s [] true major minor path
            (init_device_file_parameters src)
        else if ¬ nvidia_test_file_state
            (get_file_state_helper s.fs path major minor
              (init_device_file_parameters src).uid
              (init_device_file_parameters src).gid
              (init_device_file_parameters src).mode)
            NvDeviceFileStateChrDevOk then
          (if (opRemove w s path).1 ≠ 0 then
            ⟨0, (opRemove w s path).2, [FsOp.remove path]⟩
          else
            mknod_helper_create w (opRemove w s path).2 [FsOp.remove path]
              true major minor path (init_device_file_parameters src))
        else
          mknod_helper_create w s [] false major minor path
            (init_device_file_parameters src)) := by
  simp only [mknod_helper, if_neg hpath,
    if_neg (show ¬ ((init_device_file_parameters src).modify ≠ 1) by simp [hmod])]

/-- After a successful `mknod`, the creating branch continues with the
permission tail on the new state. -/
theorem mknod_helper_create_step (w : World) (s : Sys) (tr0 : List FsOp)
    (major minor : Nat) (path : String) (p : DeviceFileParams) (s2 : Sys)
    (hmk : opMknod w s path p.mode (NV_MAKE_DEVICE major minor) = (0, s2)) :
    mknod_helper_create w s tr0 true major minor path p
      = mknod_chmod_chown w s2
          (tr0 ++ [FsOp.mknod path p.mode (NV_MAKE_DEVICE major minor)])
          true major minor path p := by
  simp only [mknod_helper_create, if_pos rfl, hmk]
  simp

/-- File-exists flag set means there is an entry (when the entry cannot
be a symbolic link). -/
theorem facts_of_file_state_exists (fs : FS) (path : String)
    (major minor uid gid mode : Nat)
    (hlnk : ∀ st, fsGet fs path = some st → st.ftype ≠ FType.lnk)
    (hex : nvidia_test_file_state
      (get_file_state_helper fs path major minor uid gid mode)
      NvDeviceFileStateFileExists = true) :
    ∃ st, fsGet fs path = some st := by
  cases hget : fsGet fs path with
  | some st => exact ⟨st, rfl⟩
  | none =>
    exfalso
    simp only [get_file_state_helper, statFn_eq_fsGet fs path hlnk, hget]
      at hex
    exact absurd hex (by decide)

/-! ## Theorems: reconcile idempotence (claim C2) -/

/-- C2 counterexample: after a successful first reconciliation of
/dev/nvidia0 (default policy, empty initial filesystem) the /dev/char
link is already correct — it resolves to the very node the device path
resolves to — yet the immediately following second call does not detect
this: its trace removes and recreates the link, and the filesystem after
the second call differs from the one before it, contradicting "performs
zero filesystem mutations ... detects the already-correct symlink rather
than mutating it". -/
theorem reconcile_second_call_mutates_cex :
    nvidia0FirstRun.ret = 1
    ∧ statFn nvidia0FirstRun.sys.fs (charDevLinkPath 195 0)
        = statFn nvidia0FirstRun.sys.fs "/dev/nvidia0"
    ∧ statFn nvidia0FirstRun.sys.fs "/dev/nvidia0"
        = some { ftype := FType.chr, rdev := NV_MAKE_DEVICE 195 0,
                 perm := 0o666, uid := 0, gid := 0, ino := 50, target := "" }
    ∧ nvidia0SecondRun.tr
        = [FsOp.remove (charDevLinkPath 195 0),
           FsOp.symlink "../nvidia0" (charDevLinkPath 195 0)]
    ∧ nvidia0SecondRun.sys.fs ≠ nvidia0FirstRun.sys.fs := by
  decide

/-- C2 (amended): after a successful reconciliation with modification
allowed, a policy mode within the 0777 permission mask, a device path
distinct from its /dev/char link path and not itself a symbolic link, the
second call observes all three state flags set (state 7: exists, correct
character device, correct permissions) and reduces to the symlink step
alone — no mknod, remove, chmod or chown of the device node — but that
step unconditionally removes and recreates the /dev/char link (every
operation in its trace targets only the link path) rather than detecting
it as already correct. -/
theorem reconcile_idempotent_amended (w : World) (s : Sys)
    (major minor : Nat) (path : String) (src : Option (List PolicyLine))
    (h1 : (mknod_helper w s major minor path src).ret = 1)
    (hmod : (init_device_file_parameters src).modify = 1)
    (hmask : (init_device_file_parameters src).mode &&& NV_DEVICE_FILE_MODE_MASK
        = (init_device_file_parameters src).mode)
    (hsp : path ≠ charDevLinkPath major minor)
    (hlnk : ∀ st, fsGet s.fs path = some st → st.ftype ≠ FType.lnk) :
    get_file_state_helper (mknod_helper w s major minor path src).sys.fs path
        major minor (init_device_file_parameters src).uid
        (init_device_file_parameters src).gid
        (init_device_file_parameters src).mode = 7
    ∧ mknod_helper w (mknod_helper w s major minor path src).sys
        major minor path src
        = symlink_char_dev w (mknod_helper w s major minor path src).sys
            major minor path
    ∧ ∀ op ∈ (mknod_helper w (mknod_helper w s major minor path src).sys
          major minor path src).tr,
        op = FsOp.remove (charDevLinkPath major minor)
        ∨ ∃ t, op = FsOp.symlink t (charDevLinkPath major minor) := by
  obtain ⟨st, hget, hchr, hrdev, hperm, huid, hgid⟩ :=
    mknod_helper_success_post w s major minor path src h1 hmod hsp hlnk
  have hperm2 : st.perm &&& NV_DEVICE_FILE_MODE_MASK
      = (init_device_file_parameters src).mode := by rw [hperm, hmask]
  have hstate := file_state_of_facts
    (mknod_helper w s major minor path src).sys.fs path major minor
    (init_device_file_parameters src).uid
    (init_device_file_parameters src).gid
    (init_device_file_parameters src).mode st hget hchr hrdev hperm2 huid hgid
  have hpath := mknod_helper_ret_one_path_ne w s major minor path src h1
  have hsecond : mknod_helper w (mknod_helper w s major minor path src).sys
      major minor path src
      = symlink_char_dev w (mknod_helper w s major minor path src).sys
          major minor path := by
    rw [mknod_helper_unfold w (mknod_helper w s major minor path src).sys
      major minor path src hpath hmod, hstate]
    rw [if_pos (by decide)]
  refine ⟨hstate, hsecond, ?_⟩
  rw [hsecond]
  rcases symlink_char_dev_tr_shape w (mknod_helper w s major minor path src).sys
      major minor path with h2 | h2 <;> rw [h2]
  · intro op hop; simp at hop
  · intro op hop
    rcases List.mem_pair.mp hop with h3 | h3
    · exact Or.inl h3
    · exact Or.inr ⟨_, h3⟩

theorem reconcile_idempotent_amended_witness :
    get_file_state_helper nvidia0FirstRun.sys.fs "/dev/nvidia0" 195 0
        (init_device_file_parameters none).uid
        (init_device_file_parameters none).gid
        (init_device_file_parameters none).mode = 7
    ∧ mknod_helper allOkWorld nvidia0FirstRun.sys 195 0 "/dev/nvidia0" none
        = symlink_char_dev allOkWorld nvidia0FirstRun.sys 195 0 "/dev/nvidia0" :=
  have h := reconcile_idempotent_amended allOkWorld ⟨[], 50⟩ 195 0
    "/dev/nvidia0" none (by decide) (by decide) (by decide) (by decide)
    (by intro st hst; simp [fsGet] at hst)
  ⟨h.1, h.2.1⟩

/-! ## Theorems: partial-creation rollback (claim C3) -/

/-- C3 counterexample: a pre-existing correct character device with mode
0600 under the default policy (mode 0666), in a world where only the
`chown` step fails: the call reports failure and leaves the node in
place, but the node's mode has already been corrected to 0666 — it does
NOT keep "its prior attributes" as the claim states. -/
theorem rollback_preexisting_cex :
    (mknod_helper chownFailWorld ⟨[("/dev/nvidia0", preexisting600)], 90⟩
        195 0 "/dev/nvidia0" none).ret = 0
    ∧ fsGet (mknod_helper chownFailWorld ⟨[("/dev/nvidia0", preexisting600)], 90⟩
          195 0 "/dev/nvidia0" none).sys.fs "/dev/nvidia0"
        = some { preexisting600 with perm := 0o666 }
    ∧ preexisting600.perm = 0o600
    ∧ (0o666 : Nat) ≠ 0o600 := by
  decide

/-- C3 (amended): with modification allowed and the path's entry not a
symbolic link: (a) when the node was created by this call (it was absent,
or present with the wrong type or device number and removed first) and
the chmod or chown step then fails, the just-created node is removed
before failure is reported, so no entry remains; (b) when the node
pre-existed as the correct character device and only the permission-fix
step fails, failure is reported and the node is left in place — fully
unchanged when `chmod` itself failed, but carrying the already-corrected
mode bits (with prior ownership and inode) when `chmod` succeeded and
`chown` failed. -/
theorem rollback_on_permission_failure (w : World) (s : Sys)
    (major minor : Nat) (path : String) (src : Option (List PolicyLine))
    (hmod : (init_device_file_parameters src).modify = 1)
    (hpath : ¬ (path = ""))
    (hlnk : ∀ st, fsGet s.fs path = some st → st.ftype ≠ FType.lnk) :
    (nvidia_test_file_state
        (get_file_state_helper s.fs path major minor
          (init_device_file_parameters src).uid
          (init_device_file_parameters src).gid
          (init_device_file_parameters src).mode)
        NvDeviceFileStateChrDevOk = false →
      w.removeFails path = false → w.mknodFails path = false →
      (w.chmodFails path = true
        ∨ (w.chmodFails path = false ∧ w.chownFails path = true)) →
      (mknod_helper w s major minor path src).ret = 0
      ∧ fsGet (mknod_helper w s major minor path src).sys.fs path = none)
    ∧ (∀ st0, fsGet s.fs path = some st0 →
        nvidia_test_file_state
          (get_file_state_helper s.fs path major minor
            (init_device_file_parameters src).uid
            (init_device_file_parameters src).gid
            (init_device_file_parameters src).mode)
          NvDeviceFileStateFileExists = true →
        nvidia_test_file_state
          (get_file_state_helper s.fs path major minor
            (init_device_file_parameters src).uid
            (init_device_file_parameters src).gid
            (init_device_file_parameters src).mode)
          NvDeviceFileStateChrDevOk = true →
        nvidia_test_file_state
          (get_file_state_helper s.fs path major minor
            (init_device_file_parameters src).uid
            (init_device_file_parameters src).gid
            (init_device_file_parameters src).mode)
          NvDeviceFileStatePermissionsOk = false →
        ((w.chmodFails path = true →
           (mknod_helper w s major minor path src).ret = 0
           ∧ fsGet (mknod_helper w s major minor path src).sys.fs path
               = some st0)
         ∧ (w.chmodFails path = false → w.chownFails path = true →
             (mknod_helper w s major minor path src).ret = 0
             ∧ fsGet (mknod_helper w s major minor path src).sys.fs path
                 = some { st0 with
                          perm := ((init_device_file_parameters src).mode
                            &&& permBits) }))) := by
  rw [mknod_helper_unfold w s major minor path src hpath hmod]
  constructor
  · intro hch hrm hmk hfail
    have hall : ¬ (nvidia_test_file_state
        (get_file_state_helper s.fs path major minor
          (init_device_file_parameters src).uid
          (init_device_file_parameters src).gid
          (init_device_file_parameters src).mode)
        NvDeviceFileStateFileExists = true ∧
      nvidia_test_file_state
        (get_file_state_helper s.fs path major minor
          (init_device_file_parameters src).uid
          (init_device_file_parameters src).gid
          (init_device_file_parameters src).mode)
        NvDeviceFileStateChrDevOk = true ∧
      nvidia_test_file_state
        (get_file_state_helper s.fs path major minor
          (init_device_file_parameters src).uid
          (init_device_file_parameters src).gid
          (init_device_file_parameters src).mode)
        NvDeviceFileStatePermissionsOk = true) := by
      intro hc
      rw [hch] at hc
      exact absurd hc.2.1 (by simp)
    rw [if_neg hall]
    by_cases hex : nvidia_test_file_state
        (get_file_state_helper s.fs path major minor
          (init_device_file_parameters src).uid
          (init_device_file_parameters src).gid
          (init_device_file_parameters src).mode)
        NvDeviceFileStateFileExists = true
    · rw [if_neg (by simp [hex])]
      rw [if_pos (by simp [hch])]
      obtain ⟨st0, hget0⟩ := facts_of_file_state_exists s.fs path major minor
        _ _ _ hlnk hex
      have hrmeq := opRemove_success w s path st0 hrm hget0
      rw [hrmeq]
      rw [if_neg (by norm_num)]
      have hnone : fsGet (fsDel s.fs path) path = none := fsGet_fsDel_self _ _
      have hmkeq := opMknod_success w { s with fs := fsDel s.fs path } path
        (init_device_file_parameters src).mode (NV_MAKE_DEVICE major minor)
        hmk hnone
      rw [mknod_helper_create_step w _ _ major minor path _ _ hmkeq]
      exact mknod_chmod_chown_fail_fresh w _ _ major minor path _ _
        (fsGet_fsSet_self _ _ _) hrm hfail
    · rw [if_pos (by simp [hex])]
      have hnone := fsGet_none_of_not_exists s.fs path major minor
        _ _ _ hlnk (by simpa using hex)
      have hmkeq := opMknod_success w s path
        (init_device_file_parameters src).mode (NV_MAKE_DEVICE major minor)
        hmk hnone
      rw [mknod_helper_create_step w _ _ major minor path _ _ hmkeq]
      exact mknod_chmod_chown_fail_fresh w _ _ major minor path _ _
        (fsGet_fsSet_self _ _ _) hrm hfail
  · intro st0 hget0 hex hch hnp
    have hall : ¬ (nvidia_test_file_state
        (get_file_state_helper s.fs path major minor
          (init_device_file_parameters src).uid
          (init_device_file_parameters src).gid
          (init_device_file_parameters src).mode)
        NvDeviceFileStateFileExists = true ∧
      nvidia_test_file_state
        (get_file_state_helper s.fs path major minor
          (init_device_file_parameters src).uid
          (init_device_file_parameters src).gid
          (init_device_file_parameters src).mode)
        NvDeviceFileStateChrDevOk = true ∧
      nvidia_test_file_state
        (get_file_state_helper s.fs path major minor
          (init_device_file_parameters src).uid
          (init_device_file_parameters src).gid
          (init_device_file_parameters src).mode)
        NvDeviceFileStatePermissionsOk = true) := by
      intro hc
      rw [hnp] at hc
      exact absurd hc.2.2 (by simp)
    rw [if_neg hall, if_neg (by simp [hex]), if_neg (by simp [hch])]
    have hcf : mknod_helper_create w s [] false major minor path
        (init_device_file_parameters src)
        = mknod_chmod_chown w s [] false major minor path
          (init_device_file_parameters src) := by
      simp [mknod_helper_create]
    rw [hcf]
    exact mknod_chmod_chown_fail_preexisting w s [] major minor path
      (init_device_file_parameters src) st0 hget0

theorem rollback_on_permission_failure_witness :
    ((mknod_helper chmodFailWorld ⟨[], 90⟩ 195 0 "/dev/nvidia0" none).ret = 0
      ∧ fsGet (mknod_helper chmodFailWorld ⟨[], 90⟩ 195 0
          "/dev/nvidia0" none).sys.fs "/dev/nvidia0" = none)
    ∧ ((mknod_helper chmodFailWorld
          ⟨[("/dev/nvidia0", preexisting600)], 90⟩ 195 0
          "/dev/nvidia0" none).ret = 0
      ∧ fsGet (mknod_helper chmodFailWorld
            ⟨[("/dev/nvidia0", preexisting600)], 90⟩ 195 0
            "/dev/nvidia0" none).sys.fs "/dev/nvidia0"
          = some preexisting600) :=
  have ha := (rollback_on_permission_failure chmodFailWorld ⟨[], 90⟩ 195 0
    "/dev/nvidia0" none (by decide) (by decide)
    (by intro st hst; simp [fsGet] at hst)).1
    (by decide) (by decide) (by decide) (Or.inl (by decide))
  have hb := ((rollback_on_permission_failure chmodFailWorld
    ⟨[("/dev/nvidia0", preexisting600)], 90⟩ 195 0 "/dev/nvidia0" none
    (by decide) (by decide)
    (by intro st hst
        simp only [fsGet, List.find?] at hst
        rw [show (("/dev/nvidia0", preexisting600).1 == "/dev/nvidia0") = true
          from by decide] at hst
        injection hst with h2
        rw [← h2]
        decide)).2
    preexisting600 (by decide) (by decide) (by decide) (by decide)).1
    (by decide)
  ⟨ha, hb⟩

end NvModprobe
